import Mathlib

/-!
Verification of the glidepath return engine of `RetirementCalculator.ts`.

TypeScript `number` values are modelled as real numbers (`ℝ`); `Math.pow`
is `Real.rpow`, `Math.floor`/`Math.ceil` are `Int.floor`/`Int.ceil`,
JavaScript `%` on the nonnegative values that occur here is `jsMod`,
`Math.round` is `jsRound`, and a thrown `Error` is `Except.error`.
Loops with an integer counter are modelled by structural recursion on the
number of remaining iterations.
-/

namespace RetirementCalc

noncomputable section

/-- JavaScript remainder `a % b` for the nonnegative operands used by the
calculator: `a - b * trunc (a / b)`, where truncation equals `Int.floor`
because the quotient is nonnegative in every call site. -/
def jsMod (a b : ℝ) : ℝ := a - b * (⌊a / b⌋ : ℤ)

/-- JavaScript `Math.round`: round half away from zero toward positive
infinity, i.e. `⌊x + 1/2⌋`. -/
def jsRound (x : ℝ) : ℝ := (⌊x + 1 / 2⌋ : ℤ)

/-- Model of `CONTRIBUTION_FREQUENCY.YEARLY`. -/
def CONTRIBUTION_FREQUENCY_YEARLY : ℝ := 1

/-- Model of `adjustDesiredBalanceDueToInflation`. -/
def adjustDesiredBalanceDueToInflation (desiredBalance years inflationRate : ℝ) : ℝ :=
  desiredBalance * (1 + inflationRate) ^ years

/-- Model of the private `getValueAfterInflation`. -/
def getValueAfterInflation (balance inflationRate years : ℝ) : ℝ :=
  balance / (1 + inflationRate) ^ years

/-- Model of the private `getInterestOverTime`. -/
def getInterestOverTime (startingBalance interestRate periods : ℝ) : ℝ :=
  startingBalance * (1 + interestRate) ^ periods

/-- Model of the private `getAdditionalContributionsTotalInterestMultiplier`:
geometric series `((1+r)^(n+1) - (1+r)) / r`, with the `r = 0` special case
returning `periods`. -/
def getAdditionalContributionsTotalInterestMultiplier (interestRate periods : ℝ) : ℝ :=
  if interestRate = 0 then periods
  else ((1 + interestRate) ^ (periods + 1) - (1 + interestRate)) / interestRate

/-- Model of the private `getTotalPeriods`. -/
def getTotalPeriods (years periodsPerYear : ℝ) : ℝ := years * periodsPerYear

/-- Model of the private `getInterestRatePerPeriod`. -/
def getInterestRatePerPeriod (interestRate compoundingFrequency : ℝ) : ℝ :=
  interestRate / compoundingFrequency

/-- Model of the private `getHowOftenToCompound`. -/
def getHowOftenToCompound (contributionFrequency compoundingFrequency : ℝ) : ℝ :=
  if contributionFrequency = CONTRIBUTION_FREQUENCY_YEARLY then compoundingFrequency
  else if contributionFrequency ≤ compoundingFrequency then
    ((⌊compoundingFrequency / contributionFrequency⌋ : ℤ) : ℝ)
  else ((⌈contributionFrequency / compoundingFrequency⌉ : ℤ) : ℝ)

/-- Model of the private `getCompoundMultiplier`. -/
def getCompoundMultiplier (contributionFrequency compoundingFrequency : ℝ) : ℝ :=
  if contributionFrequency = CONTRIBUTION_FREQUENCY_YEARLY then 1
  else min 1 (compoundingFrequency / contributionFrequency)

/-- Model of the private `convertBalanceBasedOnFrequency`. -/
def convertBalanceBasedOnFrequency
    (balance contributionFrequency compoundingFrequency : ℝ) : ℝ :=
  if balance < 0 then 0
  else if contributionFrequency < compoundingFrequency then
    balance * compoundingFrequency / contributionFrequency
  else if compoundingFrequency < contributionFrequency then
    balance / ((⌊contributionFrequency / compoundingFrequency⌋ : ℤ) : ℝ)
  else balance

/-- Model of `DetermineContributionType`. -/
structure DetermineContributionType where
  contributionNeededPerPeriod : ℝ
  contributionNeededPerPeriodWithInflation : ℝ
  desiredBalance : ℝ
  desiredBalanceWithInflation : ℝ
  desiredBalanceValueAfterInflation : ℝ

/-- Model of `getContributionNeededForDesiredBalance` (inflation rate is an
explicit argument; the TypeScript default is `0.02`). -/
def getContributionNeededForDesiredBalance
    (startingBalance desiredBalance years interestRate
      contributionFrequency compoundingFrequency inflationRate : ℝ) :
    DetermineContributionType :=
  let periods := getTotalPeriods years compoundingFrequency
  let interestRatePerPeriod := getInterestRatePerPeriod interestRate compoundingFrequency
  let startingBalanceWithInterest :=
    getInterestOverTime startingBalance interestRatePerPeriod periods
  let additionalContributionsInterestRate :=
    getAdditionalContributionsTotalInterestMultiplier interestRatePerPeriod periods
  let desiredBalanceWithInflation :=
    adjustDesiredBalanceDueToInflation desiredBalance years inflationRate
  let desiredBalanceValueAfterInflation :=
    getValueAfterInflation desiredBalance inflationRate years
  let contributionNeededPerPeriod :=
    convertBalanceBasedOnFrequency
      ((desiredBalance - startingBalanceWithInterest) / additionalContributionsInterestRate)
      contributionFrequency compoundingFrequency
  let contributionNeededPerPeriodWithInflation :=
    convertBalanceBasedOnFrequency
      ((desiredBalanceWithInflation - startingBalanceWithInterest) /
        additionalContributionsInterestRate)
      contributionFrequency compoundingFrequency
  { contributionNeededPerPeriod := contributionNeededPerPeriod
    contributionNeededPerPeriodWithInflation := contributionNeededPerPeriodWithInflation
    desiredBalance := desiredBalance
    desiredBalanceWithInflation := desiredBalanceWithInflation
    desiredBalanceValueAfterInflation := desiredBalanceValueAfterInflation }

/-- Running state of both compounding loops: the mutable variables
`balance`, `totalContributions` and `totalInterestEarned`. -/
structure SimState where
  balance : ℝ
  totalContributions : ℝ
  totalInterestEarned : ℝ

/-- Model of `CompoundingPeriodDetailsType`. -/
structure CompoundingPeriodDetailsType where
  period : ℕ
  balance : ℝ
  contributionTotal : ℝ
  interestTotal : ℝ
  interestEarnedThisPeriod : ℝ
  balanceFromContributions : ℝ
  balanceFromInterest : ℝ

/-- One iteration of the fixed-rate loop plus the recursion over the
remaining periods; `p` is the current 1-based period number and the second
argument the number of iterations left. -/
def fixedPeriodLoop (amount howOftenToCompound compoundMultiplier ratePerPeriod : ℝ) :
    ℕ → ℕ → SimState → SimState × List CompoundingPeriodDetailsType
  | _, 0, s => (s, [])
  | p, fuel + 1, s =>
    let contributionThisPeriod :=
      if jsMod (p : ℝ) howOftenToCompound = 0 then amount * compoundMultiplier else 0
    let s₁ : SimState :=
      ⟨s.balance + contributionThisPeriod,
        s.totalContributions + contributionThisPeriod, s.totalInterestEarned⟩
    let interestEarnedThisPeriod := s₁.balance * ratePerPeriod
    let s₂ : SimState :=
      ⟨s₁.balance + interestEarnedThisPeriod, s₁.totalContributions,
        s₁.totalInterestEarned + interestEarnedThisPeriod⟩
    let detail : CompoundingPeriodDetailsType :=
      { period := p
        balance := s₂.balance
        contributionTotal := s₂.totalContributions
        interestTotal := s₂.totalInterestEarned
        interestEarnedThisPeriod := interestEarnedThisPeriod
        balanceFromContributions := s₂.totalContributions
        balanceFromInterest := s₂.balance - s₂.totalContributions }
    let rest := fixedPeriodLoop amount howOftenToCompound compoundMultiplier ratePerPeriod
      (p + 1) fuel s₂
    (rest.1, detail :: rest.2)

/-- Model of `CompoundingInterestObjectType`. -/
structure CompoundingInterestObjectType where
  balance : ℝ
  totalContributions : ℝ
  totalInterestEarned : ℝ
  years : ℝ
  contributionFrequency : ℝ
  compoundingFrequency : ℝ
  compoundingPeriodDetails : List CompoundingPeriodDetailsType
  effectiveAnnualReturn : ℝ
  averageAnnualInterestRate : ℝ

/-- Model of `getCompoundInterestWithAdditionalContributions`.  The loop
`for (period = 1; period <= periods; period++)` runs `max 0 ⌊periods⌋`
times. -/
def getCompoundInterestWithAdditionalContributions
    (initialBalance additionalContributionAmount years interestRate
      contributionFrequency compoundingFrequency : ℝ) :
    CompoundingInterestObjectType :=
  let periods := getTotalPeriods years compoundingFrequency
  let compoundMultiplier := getCompoundMultiplier contributionFrequency compoundingFrequency
  let howOftenToCompound := getHowOftenToCompound contributionFrequency compoundingFrequency
  let interestRatePerPeriod := getInterestRatePerPeriod interestRate compoundingFrequency
  let numPeriods := (⌊periods⌋).toNat
  let run := fixedPeriodLoop additionalContributionAmount howOftenToCompound
    compoundMultiplier interestRatePerPeriod 1 numPeriods ⟨initialBalance, 0, 0⟩
  let sF := run.1
  let effectiveAnnualReturn :=
    if sF.totalInterestEarned = 0 then 0
    else if initialBalance = 0 then
      if 0 < sF.totalContributions then
        (sF.balance / sF.totalContributions) ^ ((1 : ℝ) / years) - 1
      else 0
    else (sF.balance / initialBalance) ^ ((1 : ℝ) / years) - 1
  let totalInvested := initialBalance + sF.totalContributions
  let averageAnnualInterestRate :=
    if 0 < totalInvested ∧ 0 < sF.totalInterestEarned then
      sF.totalInterestEarned / years / totalInvested
    else 0
  { balance := sF.balance
    totalContributions := sF.totalContributions
    totalInterestEarned := sF.totalInterestEarned
    years := years
    contributionFrequency := contributionFrequency
    compoundingFrequency := compoundingFrequency
    compoundingPeriodDetails := run.2
    effectiveAnnualReturn := effectiveAnnualReturn
    averageAnnualInterestRate := averageAnnualInterestRate }

end

/-- C8: for a nonnegative balance and positive frequencies the frequency
normalizer multiplies by `compoundingFrequency / contributionFrequency` when
compounding is more frequent, divides by `⌊contributionFrequency /
compoundingFrequency⌋` (the floor of the ratio, not the raw ratio) when
contributions are more frequent, and leaves the balance unchanged when they
are equal; negative balances yield `0`.  Amended from the claim: the
division branch uses the floored ratio. -/
theorem convertBalance_cases (balance cf kf : ℝ) (hcf : 0 < cf) (hkf : 0 < kf) :
    (balance < 0 → convertBalanceBasedOnFrequency balance cf kf = 0) ∧
    (0 ≤ balance →
      (cf < kf → convertBalanceBasedOnFrequency balance cf kf = balance * kf / cf) ∧
      (kf < cf →
        convertBalanceBasedOnFrequency balance cf kf = balance / ((⌊cf / kf⌋ : ℤ) : ℝ)) ∧
      (cf = kf → convertBalanceBasedOnFrequency balance cf kf = balance)) := by
  refine ⟨fun hneg => ?_, fun hpos => ⟨fun hlt => ?_, fun hgt => ?_, fun heq => ?_⟩⟩
  · simp [convertBalanceBasedOnFrequency, hneg]
  · rw [convertBalanceBasedOnFrequency, if_neg (not_lt.mpr hpos), if_pos hlt]
  · rw [convertBalanceBasedOnFrequency, if_neg (not_lt.mpr hpos),
      if_neg (lt_asymm hgt), if_pos hgt]
  · subst heq
    rw [convertBalanceBasedOnFrequency, if_neg (not_lt.mpr hpos), if_neg (lt_irrefl _),
      if_neg (lt_irrefl _)]

/-- Witness for C8: with balance `5`, contributions twice a year and
compounding six times a year, the normalizer returns `5 * 6 / 2 = 15`. -/
theorem convertBalance_cases_witness :
    convertBalanceBasedOnFrequency 5 2 6 = 15 := by
  have h := ((convertBalance_cases 5 2 6 (by norm_num) (by norm_num)).2
    (by norm_num)).1 (by norm_num)
  rw [h]; norm_num

/-- Counterexample for C8: with `balance = 13`, `contributionFrequency = 52`
and `compoundingFrequency = 12` the code divides by `⌊52/12⌋ = 4` and
returns `3.25`, while the claimed division by the raw ratio `52/12` would
give `3`. -/
theorem convertBalance_floor_counterexample :
    convertBalanceBasedOnFrequency 13 52 12 = 13 / 4 ∧
      ¬ convertBalanceBasedOnFrequency 13 52 12 = 13 / ((52 : ℝ) / 12) := by
  have h4 : (⌊(52 : ℝ) / 12⌋ : ℤ) = 4 := by
    rw [Int.floor_eq_iff] <;> norm_num
  constructor
  · rw [convertBalanceBasedOnFrequency]
    rw [if_neg (by norm_num), if_neg (by norm_num), if_pos (by norm_num), h4]
    norm_num
  · rw [convertBalanceBasedOnFrequency]
    rw [if_neg (by norm_num), if_neg (by norm_num), if_pos (by norm_num), h4]
    norm_num

/-- On natural-number operands, `jsMod` agrees with the natural remainder. -/
theorem jsMod_natCast (p h : ℕ) (hh : 0 < h) :
    jsMod (p : ℝ) (h : ℝ) = ((p % h : ℕ) : ℝ) := by
  have hh' : (0 : ℝ) < h := by exact_mod_cast hh
  have hfl : (⌊(p : ℝ) / (h : ℝ)⌋ : ℤ) = ((p / h : ℕ) : ℤ) := by
    rw [← Int.natCast_floor_eq_floor (by positivity), Nat.floor_div_eq_div]
  have hmod := Nat.div_add_mod p h
  have hcast : (h : ℝ) * ((p / h : ℕ) : ℝ) + ((p % h : ℕ) : ℝ) = (p : ℝ) := by
    exact_mod_cast congrArg (fun n : ℕ => (n : ℝ)) hmod
  rw [jsMod, hfl, Int.cast_natCast]
  linarith

/-- The contribution trigger `period % howOftenToCompound === 0` is
divisibility when `howOftenToCompound` is a positive natural number. -/
theorem jsMod_eq_zero_iff (p h : ℕ) (hh : 0 < h) :
    jsMod (p : ℝ) (h : ℝ) = 0 ↔ h ∣ p := by
  rw [jsMod_natCast p h hh]
  rw [Nat.cast_eq_zero, Nat.dvd_iff_mod_eq_zero]

/-- C7: whenever the computed per-period amount handed to the frequency
normalizer is negative, the returned contribution is exactly `0` (and the
function is total, so no error is raised); the inflation-adjusted
contribution is clamped in the same way. -/
theorem contributionNeeded_clamped
    (startingBalance desiredBalance years interestRate
      contributionFrequency compoundingFrequency inflationRate : ℝ) :
    ((desiredBalance -
        getInterestOverTime startingBalance
          (getInterestRatePerPeriod interestRate compoundingFrequency)
          (getTotalPeriods years compoundingFrequency)) /
        getAdditionalContributionsTotalInterestMultiplier
          (getInterestRatePerPeriod interestRate compoundingFrequency)
          (getTotalPeriods years compoundingFrequency) < 0 →
      (getContributionNeededForDesiredBalance startingBalance desiredBalance years
        interestRate contributionFrequency compoundingFrequency
        inflationRate).contributionNeededPerPeriod = 0) ∧
    ((adjustDesiredBalanceDueToInflation desiredBalance years inflationRate -
        getInterestOverTime startingBalance
          (getInterestRatePerPeriod interestRate compoundingFrequency)
          (getTotalPeriods years compoundingFrequency)) /
        getAdditionalContributionsTotalInterestMultiplier
          (getInterestRatePerPeriod interestRate compoundingFrequency)
          (getTotalPeriods years compoundingFrequency) < 0 →
      (getContributionNeededForDesiredBalance startingBalance desiredBalance years
        interestRate contributionFrequency compoundingFrequency
        inflationRate).contributionNeededPerPeriodWithInflation = 0) := by
  constructor
  · intro h
    simp only [getContributionNeededForDesiredBalance]
    rw [convertBalanceBasedOnFrequency, if_pos h]
  · intro h
    simp only [getContributionNeededForDesiredBalance]
    rw [convertBalanceBasedOnFrequency, if_pos h]

/-- Witness for C7: sizing a contribution toward a desired balance of
`-100` from a starting balance of `0` at rate `0` clamps both per-period
contributions to `0`. -/
theorem contributionNeeded_clamped_witness :
    (getContributionNeededForDesiredBalance 0 (-100) 1 0 12 12
        0).contributionNeededPerPeriod = 0 ∧
      (getContributionNeededForDesiredBalance 0 (-100) 1 0 12 12
        0).contributionNeededPerPeriodWithInflation = 0 := by
  have hmul : getAdditionalContributionsTotalInterestMultiplier
      (getInterestRatePerPeriod 0 12) (getTotalPeriods 1 12) = 12 := by
    simp [getAdditionalContributionsTotalInterestMultiplier, getInterestRatePerPeriod,
      getTotalPeriods]
  have hgrow : getInterestOverTime 0 (getInterestRatePerPeriod 0 12)
      (getTotalPeriods 1 12) = 0 := by
    simp [getInterestOverTime]
  have h := contributionNeeded_clamped 0 (-100) 1 0 12 12 0
  exact ⟨h.1 (by rw [hmul, hgrow]; norm_num),
    h.2 (by rw [hmul, hgrow, adjustDesiredBalanceDueToInflation]; norm_num)⟩

/-- With a zero per-period rate the fixed-rate loop earns no interest and
grows the balance exactly by the contributions it adds. -/
theorem fixedPeriodLoop_rate_zero (amount howOften mult : ℝ) :
    ∀ (fuel p : ℕ) (s : SimState),
      (fixedPeriodLoop amount howOften mult 0 p fuel s).1.totalInterestEarned =
          s.totalInterestEarned ∧
        (fixedPeriodLoop amount howOften mult 0 p fuel s).1.balance -
            (fixedPeriodLoop amount howOften mult 0 p fuel s).1.totalContributions =
          s.balance - s.totalContributions := by
  intro fuel
  induction fuel with
  | zero => intro p s; simp [fixedPeriodLoop]
  | succ n ih =>
    intro p s
    simp only [fixedPeriodLoop, mul_zero, add_zero]
    exact ⟨(ih (p + 1) _).1, by
      have h := (ih (p + 1)
        ⟨s.balance + (if jsMod (p : ℝ) howOften = 0 then amount * mult else 0),
          s.totalContributions + (if jsMod (p : ℝ) howOften = 0 then amount * mult else 0),
          s.totalInterestEarned⟩).2
      simp only at h
      rw [h]
      ring⟩

/-- The fixed-rate loop adds `amount * multiplier` exactly once per period
number divisible by the (natural-number) compounding cadence. -/
theorem fixedPeriodLoop_totalContributions (amount mult rpp : ℝ) (k : ℕ) (hk : 0 < k) :
    ∀ (fuel p : ℕ) (s : SimState),
      (fixedPeriodLoop amount (k : ℝ) mult rpp p fuel s).1.totalContributions =
        s.totalContributions +
          amount * mult *
            (((Finset.Ico p (p + fuel)).filter (fun q => k ∣ q)).card : ℝ) := by
  intro fuel
  induction fuel with
  | zero => intro p s; simp [fixedPeriodLoop]
  | succ n ih =>
    intro p s
    simp only [fixedPeriodLoop, jsMod_eq_zero_iff p k hk]
    have hrange : Finset.Ico p (p + (n + 1)) = insert p (Finset.Ico (p + 1) (p + 1 + n)) := by
      have h1 : p + 1 + n = p + (n + 1) := by omega
      rw [h1, Nat.Ico_insert_succ_left (by omega)]
    have hnotmem : p ∉ (Finset.Ico (p + 1) (p + 1 + n)).filter (fun q => k ∣ q) := by
      simp
    rw [ih (p + 1)]
    simp only []
    rw [hrange, Finset.filter_insert]
    by_cases hdvd : k ∣ p
    · rw [if_pos hdvd, if_pos hdvd, Finset.card_insert_of_not_mem hnotmem]
      push_cast
      ring
    · rw [if_neg hdvd, if_neg hdvd]
      push_cast
      ring

/-- Among the periods `1, …, k*q` exactly `q` are divisible by `k`. -/
theorem card_periods_dvd (k q : ℕ) (hk : 0 < k) :
    ((Finset.Ico 1 (1 + k * q)).filter (fun x => k ∣ x)).card = q := by
  have h1 : Finset.Ico 1 (1 + k * q) = Finset.Ioc 0 (k * q) := by
    rw [Nat.add_comm 1 (k * q), Nat.Ico_succ_right, Nat.Icc_succ_left]
  rw [h1, Nat.Ioc_filter_dvd_card_eq_div, Nat.mul_div_cancel_left q hk]

/-- With divisible positive natural frequencies the compounding cadence is
the exact frequency ratio. -/
theorem getHowOftenToCompound_div (a b : ℕ) (ha : 0 < a) (hb : 0 < b) (hdvd : a ∣ b) :
    getHowOftenToCompound (a : ℝ) (b : ℝ) = ((b / a : ℕ) : ℝ) := by
  have hab : a ≤ b := Nat.le_of_dvd hb hdvd
  rw [getHowOftenToCompound, CONTRIBUTION_FREQUENCY_YEARLY]
  by_cases h1 : (a : ℝ) = 1
  · have ha1 : a = 1 := by exact_mod_cast h1
    subst ha1
    rw [if_pos h1, Nat.div_one]
  · rw [if_neg h1, if_pos (by exact_mod_cast hab)]
    have hratio : (b : ℝ) / (a : ℝ) = ((b / a : ℕ) : ℝ) :=
      (Nat.cast_div hdvd (by exact_mod_cast ha.ne')).symm
    rw [hratio, Int.floor_natCast, Int.cast_natCast]

/-- With divisible positive natural frequencies the compound multiplier is
`1`. -/
theorem getCompoundMultiplier_div (a b : ℕ) (ha : 0 < a) (hb : 0 < b) (hdvd : a ∣ b) :
    getCompoundMultiplier (a : ℝ) (b : ℝ) = 1 := by
  have hab : a ≤ b := Nat.le_of_dvd hb hdvd
  rw [getCompoundMultiplier, CONTRIBUTION_FREQUENCY_YEARLY]
  by_cases h1 : (a : ℝ) = 1
  · rw [if_pos h1]
  · rw [if_neg h1]
    have hratio : (1 : ℝ) ≤ (b : ℝ) / (a : ℝ) := by
      rw [le_div_iff₀ (by exact_mod_cast ha)]
      simpa using (by exact_mod_cast hab : (a : ℝ) ≤ (b : ℝ))
    exact min_eq_left hratio

/-- C6: at interest rate `0` the fixed-rate engine earns no interest and
the final balance is exactly `initialBalance + totalContributions`; when
moreover the years and frequencies are positive integers with
`contributionFrequency` dividing `compoundingFrequency`, the total
contributed is exactly `amount * contributionFrequency * years`.  Amended
from the claim: the product formula needs the divisibility hypothesis. -/
theorem zero_rate_engine_exact :
    (∀ (initialBalance amount years cf kf : ℝ),
        (getCompoundInterestWithAdditionalContributions initialBalance amount years 0 cf
              kf).totalInterestEarned = 0 ∧
          (getCompoundInterestWithAdditionalContributions initialBalance amount years 0 cf
                kf).balance =
            initialBalance +
              (getCompoundInterestWithAdditionalContributions initialBalance amount years 0
                    cf kf).totalContributions) ∧
      ∀ (y a b : ℕ) (initialBalance amount : ℝ), 0 < y → 0 < a → 0 < b → a ∣ b →
        (getCompoundInterestWithAdditionalContributions initialBalance amount (y : ℝ) 0
              (a : ℝ) (b : ℝ)).totalContributions = amount * (a : ℝ) * (y : ℝ) := by
  constructor
  · intro initialBalance amount years cf kf
    simp only [getCompoundInterestWithAdditionalContributions, getInterestRatePerPeriod,
      zero_div]
    have h := fixedPeriodLoop_rate_zero amount
      (getHowOftenToCompound cf kf) (getCompoundMultiplier cf kf)
      ((⌊getTotalPeriods years kf⌋).toNat) 1 ⟨initialBalance, 0, 0⟩
    simp only at h
    exact ⟨h.1, by linarith [h.2]⟩
  · intro y a b initialBalance amount hy ha hb hdvd
    have hk : 0 < b / a := Nat.div_pos (Nat.le_of_dvd hb hdvd) ha
    have hN : (⌊getTotalPeriods (y : ℝ) (b : ℝ)⌋).toNat = y * b := by
      rw [getTotalPeriods, show (y : ℝ) * (b : ℝ) = ((y * b : ℕ) : ℝ) by push_cast; ring,
        Int.floor_natCast]
      exact Int.toNat_natCast _
    simp only [getCompoundInterestWithAdditionalContributions]
    rw [getHowOftenToCompound_div a b ha hb hdvd, getCompoundMultiplier_div a b ha hb hdvd,
      hN, fixedPeriodLoop_totalContributions amount 1 _ (b / a) hk (y * b) 1
        ⟨initialBalance, 0, 0⟩]
    have hyb : 1 + y * b = 1 + (b / a) * (y * a) := by
      have h1 : b / a * (y * a) = y * (b / a * a) := by ring
      rw [h1, Nat.div_mul_cancel hdvd]
    rw [hyb, card_periods_dvd (b / a) (y * a) hk]
    simp only []
    push_cast
    ring

/-- Witness for C6: one year of monthly `100` contributions compounded
monthly at rate `0` from a starting balance of `50` earns no interest,
contributes `1200` in total and ends at exactly `1250`. -/
theorem zero_rate_engine_exact_witness :
    (getCompoundInterestWithAdditionalContributions 50 100 ((1 : ℕ) : ℝ) 0 ((12 : ℕ) : ℝ)
          ((12 : ℕ) : ℝ)).totalInterestEarned = 0 ∧
      (getCompoundInterestWithAdditionalContributions 50 100 ((1 : ℕ) : ℝ) 0 ((12 : ℕ) : ℝ)
            ((12 : ℕ) : ℝ)).balance =
        50 + (getCompoundInterestWithAdditionalContributions 50 100 ((1 : ℕ) : ℝ) 0
              ((12 : ℕ) : ℝ) ((12 : ℕ) : ℝ)).totalContributions ∧
      (getCompoundInterestWithAdditionalContributions 50 100 ((1 : ℕ) : ℝ) 0 ((12 : ℕ) : ℝ)
            ((12 : ℕ) : ℝ)).totalContributions = 100 * ((12 : ℕ) : ℝ) * ((1 : ℕ) : ℝ) :=
  ⟨(zero_rate_engine_exact.1 50 100 _ _ _).1,
    (zero_rate_engine_exact.1 50 100 _ _ _).2,
    zero_rate_engine_exact.2 1 12 12 50 100 (by norm_num) (by norm_num) (by norm_num)
      (by norm_num)⟩

/-- Counterexample for C6: contributing twice a year while compounding
three times a year for one year at rate `0` produces total contributions of
`300`, not the claimed `amount * contributionFrequency * years = 200`:
the loop contributes in every one of the three compounding periods because
`howOftenToCompound = ⌊3/2⌋ = 1`. -/
theorem zero_rate_contributions_counterexample :
    (getCompoundInterestWithAdditionalContributions 0 100 1 0 2 3).totalContributions =
        300 ∧
      (300 : ℝ) ≠ 100 * 2 * 1 := by
  refine ⟨?_, by norm_num⟩
  have hHow : getHowOftenToCompound (2 : ℝ) 3 = ((1 : ℕ) : ℝ) := by
    rw [getHowOftenToCompound, CONTRIBUTION_FREQUENCY_YEARLY, if_neg (by norm_num),
      if_pos (by norm_num)]
    rw [show (⌊(3 : ℝ) / 2⌋ : ℤ) = 1 by rw [Int.floor_eq_iff] <;> norm_num]
    norm_num
  have hMult : getCompoundMultiplier (2 : ℝ) 3 = 1 := by
    rw [getCompoundMultiplier, CONTRIBUTION_FREQUENCY_YEARLY, if_neg (by norm_num)]
    exact min_eq_left (by norm_num)
  have hN : (⌊getTotalPeriods (1 : ℝ) 3⌋).toNat = 3 := by
    rw [getTotalPeriods, show (1 : ℝ) * 3 = ((3 : ℕ) : ℝ) by norm_num, Int.floor_natCast]
    rfl
  simp only [getCompoundInterestWithAdditionalContributions]
  rw [hHow, hN, fixedPeriodLoop_totalContributions 100 _ _ 1 one_pos 3 1 ⟨0, 0, 0⟩, hMult]
  rw [show (Finset.Ico 1 (1 + 3)).filter (fun q => 1 ∣ q) = Finset.Ico 1 4 by
    apply Finset.filter_true_of_mem; intro x _; exact one_dvd x]
  rw [Nat.card_Ico]
  norm_num

/-! Dynamic glidepath model. -/

/-- Model of `ContributionTiming`; `end_` models the string `'end'`. -/
inductive ContributionTiming where
  | start
  | end_
deriving DecidableEq

/-- Model of the `valueType` discriminator of custom waypoint
configurations; `returnValue` models the string `'return'`. -/
inductive WaypointValueType where
  | returnValue
  | equityWeight
deriving DecidableEq

/-- Model of `GlidepathWaypoint`. -/
structure GlidepathWaypoint where
  age : ℝ
  value : ℝ

instance : Inhabited GlidepathWaypoint := ⟨⟨0, 0⟩⟩

/-- Model of the discriminated union `DynamicGlidepathConfig`; the optional
`equityReturn`/`bondReturn` of custom-waypoint configs are `Option`s. -/
inductive DynamicGlidepathConfig where
  | fixedReturn (startReturn endReturn : ℝ)
  | steppedReturn (baseReturn declineRate terminalReturn declineStartAge terminalAge : ℝ)
  | allocationBased (startEquityWeight endEquityWeight equityReturn bondReturn : ℝ)
  | customWaypoints (valueType : WaypointValueType) (waypoints : List GlidepathWaypoint)
      (equityReturn bondReturn : Option ℝ)

noncomputable section

/-- Model of the private `calculateAgeProgress`. -/
def calculateAgeProgress (age startAge endAge : ℝ) : ℝ :=
  max 0 (min 1 ((age - startAge) / (endAge - startAge)))

/-- Model of the private `calculateFixedReturnGlidepath`. -/
def calculateFixedReturnGlidepath (age startReturn endReturn startAge endAge : ℝ) : ℝ :=
  startReturn + (endReturn - startReturn) * calculateAgeProgress age startAge endAge

/-- Model of the private `calculateSteppedReturnGlidepath`. -/
def calculateSteppedReturnGlidepath
    (age baseReturn declineRate terminalReturn declineStartAge terminalAge : ℝ) : ℝ :=
  if age < declineStartAge then baseReturn
  else if terminalAge ≤ age then terminalReturn
  else max (baseReturn - (age - declineStartAge) * declineRate) terminalReturn

/-- Model of the private `calculateBlendedReturn`. -/
def calculateBlendedReturn (equityWeight equityReturn bondReturn : ℝ) : ℝ :=
  equityWeight * equityReturn + (1 - equityWeight) * bondReturn

/-- Model of the private `calculateAllocationBasedGlidepath`. -/
def calculateAllocationBasedGlidepath
    (age startEquityWeight endEquityWeight equityReturn bondReturn startAge endAge : ℝ) : ℝ :=
  calculateBlendedReturn
    (startEquityWeight +
      (endEquityWeight - startEquityWeight) * calculateAgeProgress age startAge endAge)
    equityReturn bondReturn

instance : DecidableRel (fun a b : GlidepathWaypoint => a.age ≤ b.age) :=
  fun a b => Real.decidableLE a.age b.age

/-- Model of `[...waypoints].sort((a, b) => a.age - b.age)`: the ECMAScript
sort is stable, so it coincides with insertion sort by nondecreasing age. -/
def sortWaypoints (waypoints : List GlidepathWaypoint) : List GlidepathWaypoint :=
  List.insertionSort (fun a b => a.age ≤ b.age) waypoints

/-- Linear interpolation between two waypoints, as in the loop body of
`interpolateWaypoints`. -/
def lerpWaypoints (lowerWaypoint upperWaypoint : GlidepathWaypoint) (age : ℝ) : ℝ :=
  lowerWaypoint.value +
    (upperWaypoint.value - lowerWaypoint.value) *
      ((age - lowerWaypoint.age) / (upperWaypoint.age - lowerWaypoint.age))

/-- The scan `for (i = 0; i < waypoints.length - 1; i++)` of
`interpolateWaypoints`: return the interpolation at the first adjacent pair
bracketing `age`, or `none` when no pair brackets it. -/
def findBracketValue (age : ℝ) : List GlidepathWaypoint → Option ℝ
  | a :: b :: rest =>
    if a.age ≤ age ∧ age ≤ b.age then some (lerpWaypoints a b age)
    else findBracketValue age (b :: rest)
  | _ => none

/-- Body of `interpolateWaypoints` on a nonempty list `w :: ws`: the
single-waypoint case, the two clamps, the bracket scan, and the
unreachable fallback to the last value. -/
def interpolateWaypointsNE (age : ℝ) (w : GlidepathWaypoint)
    (ws : List GlidepathWaypoint) : ℝ :=
  match ws with
  | [] => w.value
  | _ :: _ =>
    let lastW := ws.getLastD w
    if age ≤ w.age then w.value
    else if lastW.age ≤ age then lastW.value
    else (findBracketValue age (w :: ws)).getD lastW.value

/-- Model of the private `interpolateWaypoints`; the empty list throws. -/
def interpolateWaypoints (age : ℝ) : List GlidepathWaypoint → Except String ℝ
  | [] => .error ("Waypoints array must contain at least one waypoint")
  | w :: ws => .ok (interpolateWaypointsNE age w ws)

/-- Model of the private `calculateCustomWaypointsGlidepath`: sort a copy of
the waypoints, throw on an empty list, interpolate, then blend equity
weights with the defaulted equity/bond returns. -/
def calculateCustomWaypointsGlidepath (age : ℝ) (valueType : WaypointValueType)
    (waypoints : List GlidepathWaypoint) (equityReturn bondReturn : Option ℝ) :
    Except String ℝ :=
  match sortWaypoints waypoints with
  | [] => .error ("Custom waypoints configuration must have at least one waypoint")
  | w :: ws =>
    let interpolatedValue := interpolateWaypointsNE age w ws
    match valueType with
    | .returnValue => .ok interpolatedValue
    | .equityWeight =>
      .ok (calculateBlendedReturn interpolatedValue (equityReturn.getD 0.1)
        (bondReturn.getD 0.04))

/-- Model of the private `calculateGlidepathReturn`. -/
def calculateGlidepathReturn (age : ℝ) (config : DynamicGlidepathConfig)
    (startAge endAge : ℝ) : Except String ℝ :=
  match config with
  | .fixedReturn startReturn endReturn =>
    .ok (calculateFixedReturnGlidepath age startReturn endReturn startAge endAge)
  | .steppedReturn baseReturn declineRate terminalReturn declineStartAge terminalAge =>
    .ok (calculateSteppedReturnGlidepath age baseReturn declineRate terminalReturn
      declineStartAge terminalAge)
  | .allocationBased startEquityWeight endEquityWeight equityReturn bondReturn =>
    .ok (calculateAllocationBasedGlidepath age startEquityWeight endEquityWeight
      equityReturn bondReturn startAge endAge)
  | .customWaypoints valueType waypoints equityReturn bondReturn =>
    calculateCustomWaypointsGlidepath age valueType waypoints equityReturn bondReturn

/-- Model of the private `getCurrentEquityWeight`; `undefined` is `none`. -/
def getCurrentEquityWeight (age : ℝ) (config : DynamicGlidepathConfig)
    (startAge endAge : ℝ) : Option ℝ :=
  match config with
  | .allocationBased startEquityWeight endEquityWeight _ _ =>
    some (startEquityWeight +
      (endEquityWeight - startEquityWeight) * calculateAgeProgress age startAge endAge)
  | .customWaypoints valueType waypoints _ _ =>
    match valueType with
    | .returnValue => none
    | .equityWeight =>
      match sortWaypoints waypoints with
      | [] => none
      | w :: ws => some (interpolateWaypointsNE age w ws)
  | _ => none

/-- Model of the private `convertAnnualToMonthlyRate`:
`(1 + annualRate)^(1/12) - 1`. -/
def convertAnnualToMonthlyRate (annualRate : ℝ) : ℝ :=
  (1 + annualRate) ^ ((1 : ℝ) / 12) - 1

/-- Model of `MonthlyTimelineEntry`. -/
structure MonthlyTimelineEntry where
  month : ℕ
  age : ℝ
  currentBalance : ℝ
  cumulativeContributions : ℝ
  cumulativeInterest : ℝ
  monthlyInterestEarned : ℝ
  currentAnnualReturn : ℝ
  currentMonthlyReturn : ℝ
  currentEquityWeight : Option ℝ

/-- The loop-invariant inputs of the monthly simulation loop. -/
structure SimParams where
  startAge : ℝ
  endAge : ℝ
  config : DynamicGlidepathConfig
  contributionAmount : ℝ
  howOftenToCompound : ℝ
  compoundMultiplier : ℝ
  contributionTiming : ContributionTiming

/-- The current age in month `month`: `startAge + (month - 1) / 12`. -/
def ageInMonth (P : SimParams) (month : ℕ) : ℝ :=
  P.startAge + ((month : ℝ) - 1) / 12

/-- The contribution added in month `month`: `contributionAmount *
compoundMultiplier` when `month % howOftenToCompound === 0`, else `0`. -/
def contributionForMonth (P : SimParams) (month : ℕ) : ℝ :=
  if jsMod (month : ℝ) P.howOftenToCompound = 0 then
    P.contributionAmount * P.compoundMultiplier
  else 0

/-- State after the start-of-month contribution branch. -/
def preContribState (P : SimParams) (month : ℕ) (s : SimState) : SimState :=
  if P.contributionTiming = ContributionTiming.start ∧ 0 < contributionForMonth P month then
    ⟨s.balance + contributionForMonth P month,
      s.totalContributions + contributionForMonth P month, s.totalInterestEarned⟩
  else s

/-- State after applying monthly compounding to `s₁`. -/
def postInterestState (monthlyReturnRate : ℝ) (s₁ : SimState) : SimState :=
  ⟨s₁.balance + s₁.balance * monthlyReturnRate, s₁.totalContributions,
    s₁.totalInterestEarned + s₁.balance * monthlyReturnRate⟩

/-- State after the end-of-month contribution branch. -/
def postContribState (P : SimParams) (month : ℕ) (s₂ : SimState) : SimState :=
  if P.contributionTiming = ContributionTiming.end_ ∧ 0 < contributionForMonth P month then
    ⟨s₂.balance + contributionForMonth P month,
      s₂.totalContributions + contributionForMonth P month, s₂.totalInterestEarned⟩
  else s₂

/-- The complete state update of one month of the simulation loop. -/
def monthState (P : SimParams) (month : ℕ) (annualReturnRate : ℝ) (s : SimState) : SimState :=
  postContribState P month
    (postInterestState (convertAnnualToMonthlyRate annualReturnRate)
      (preContribState P month s))

/-- The timeline entry recorded for one month of the simulation loop. -/
def monthEntry (P : SimParams) (month : ℕ) (annualReturnRate : ℝ) (s : SimState) :
    MonthlyTimelineEntry :=
  { month := month
    age := ageInMonth P month
    currentBalance := (monthState P month annualReturnRate s).balance
    cumulativeContributions := (monthState P month annualReturnRate s).totalContributions
    cumulativeInterest := (monthState P month annualReturnRate s).totalInterestEarned
    monthlyInterestEarned :=
      (preContribState P month s).balance * convertAnnualToMonthlyRate annualReturnRate
    currentAnnualReturn := annualReturnRate
    currentMonthlyReturn := convertAnnualToMonthlyRate annualReturnRate
    currentEquityWeight := getCurrentEquityWeight (ageInMonth P month) P.config
      P.startAge P.endAge }

/-- The monthly simulation loop of `getCompoundInterestWithGlidepath`:
`month` is the current 1-based month number and the second argument the
number of iterations left.  A resolver error aborts the whole loop. -/
def simulateMonths (P : SimParams) :
    ℕ → ℕ → SimState → Except String (SimState × List MonthlyTimelineEntry)
  | _, 0, s => .ok (s, [])
  | month, fuel + 1, s =>
    match calculateGlidepathReturn (ageInMonth P month) P.config P.startAge P.endAge with
    | .error msg => .error msg
    | .ok annualReturnRate =>
      match simulateMonths P (month + 1) fuel (monthState P month annualReturnRate s) with
      | .error msg => .error msg
      | .ok (sF, rest) => .ok (sF, monthEntry P month annualReturnRate s :: rest)

/-- Model of `DynamicGlidepathResult`. -/
structure DynamicGlidepathResult where
  finalBalance : ℝ
  totalContributions : ℝ
  totalInterestEarned : ℝ
  totalMonths : ℕ
  startAge : ℝ
  endAge : ℝ
  glidepathMode : String
  monthlyTimeline : List MonthlyTimelineEntry
  effectiveAnnualReturn : ℝ
  averageAnnualInterestRate : ℝ
  averageMonthlyReturn : ℝ

/-- The `mode` string of a configuration. -/
def glidepathModeString : DynamicGlidepathConfig → String
  | .fixedReturn _ _ => "fixed-return"
  | .steppedReturn _ _ _ _ _ => "stepped-return"
  | .allocationBased _ _ _ _ => "allocation-based"
  | .customWaypoints _ _ _ _ => "custom-waypoints"

/-- The simulation parameters assembled before the monthly loop. -/
def glidepathParams (startAge endAge : ℝ) (glidepathConfig : DynamicGlidepathConfig)
    (contributionAmount contributionFrequency compoundingFrequency : ℝ)
    (contributionTiming : ContributionTiming) : SimParams :=
  { startAge := startAge
    endAge := endAge
    config := glidepathConfig
    contributionAmount := contributionAmount
    howOftenToCompound := getHowOftenToCompound contributionFrequency compoundingFrequency
    compoundMultiplier := getCompoundMultiplier contributionFrequency compoundingFrequency
    contributionTiming := contributionTiming }

/-- Model of `totalMonths = Math.ceil((endAge - startAge) * 12)`. -/
def totalMonthsFor (startAge endAge : ℝ) : ℕ :=
  (⌈(endAge - startAge) * 12⌉).toNat

/-- The summary statistics and result record built after the monthly
loop. -/
def buildGlidepathResult (initialBalance startAge endAge : ℝ)
    (glidepathConfig : DynamicGlidepathConfig) (totalMonths : ℕ) (sF : SimState)
    (monthlyTimeline : List MonthlyTimelineEntry) : DynamicGlidepathResult :=
  let totalYears := endAge - startAge
  let effectiveAnnualReturn :=
    if sF.totalInterestEarned = 0 then 0
    else if initialBalance = 0 then
      if 0 < sF.totalContributions then
        (sF.balance / sF.totalContributions) ^ ((1 : ℝ) / totalYears) - 1
      else 0
    else (sF.balance / initialBalance) ^ ((1 : ℝ) / totalYears) - 1
  let averageMonthlyReturn :=
    (monthlyTimeline.foldl (fun sum entry => sum + entry.currentMonthlyReturn) 0) /
      (monthlyTimeline.length : ℝ)
  let totalInvested := initialBalance + sF.totalContributions
  let averageAnnualInterestRate :=
    if 0 < totalInvested ∧ 0 < sF.totalInterestEarned then
      sF.totalInterestEarned / totalYears / totalInvested
    else 0
  let finalBalance := jsRound (sF.balance * 100) / 100
  { finalBalance := finalBalance
    totalContributions := sF.totalContributions
    totalInterestEarned := sF.totalInterestEarned
    totalMonths := totalMonths
    startAge := startAge
    endAge := endAge
    glidepathMode := glidepathModeString glidepathConfig
    monthlyTimeline := monthlyTimeline
    effectiveAnnualReturn := effectiveAnnualReturn
    averageAnnualInterestRate := averageAnnualInterestRate
    averageMonthlyReturn := averageMonthlyReturn }

/-- Model of `getCompoundInterestWithGlidepath`. -/
def getCompoundInterestWithGlidepath (initialBalance contributionAmount startAge endAge : ℝ)
    (glidepathConfig : DynamicGlidepathConfig)
    (contributionFrequency compoundingFrequency : ℝ)
    (contributionTiming : ContributionTiming) : Except String DynamicGlidepathResult :=
  if initialBalance < 0 then .error ("Initial balance must be non-negative")
  else if contributionAmount < 0 then .error ("Contribution amount must be non-negative")
  else if startAge ≤ 0 ∨ endAge ≤ 0 then .error ("Ages must be positive")
  else if endAge ≤ startAge then .error ("Start age must be less than end age")
  else if contributionFrequency ≤ 0 ∨ compoundingFrequency ≤ 0 then
    .error ("Frequencies must be positive")
  else
    match simulateMonths
        (glidepathParams startAge endAge glidepathConfig contributionAmount
          contributionFrequency compoundingFrequency contributionTiming)
        1 (totalMonthsFor startAge endAge) ⟨initialBalance, 0, 0⟩ with
    | .error msg => .error msg
    | .ok (sF, monthlyTimeline) =>
      .ok (buildGlidepathResult initialBalance startAge endAge glidepathConfig
        (totalMonthsFor startAge endAge) sF monthlyTimeline)

end

/-- A configuration on which the return resolver never throws: every mode
except a custom-waypoints config with an empty waypoint list. -/
def waypointsOk : DynamicGlidepathConfig → Prop
  | .customWaypoints _ waypoints _ _ => waypoints ≠ []
  | _ => True

/-- A custom-waypoints configuration with an empty waypoint list. -/
def hasEmptyWaypoints : DynamicGlidepathConfig → Prop
  | .customWaypoints _ waypoints _ _ => waypoints = []
  | _ => False

/-- Sorting preserves emptiness. -/
theorem sortWaypoints_eq_nil_iff (waypoints : List GlidepathWaypoint) :
    sortWaypoints waypoints = [] ↔ waypoints = [] := by
  constructor
  · intro h
    have hlen := List.length_insertionSort
      (fun a b : GlidepathWaypoint => a.age ≤ b.age) waypoints
    rw [sortWaypoints] at h
    rw [h] at hlen
    exact List.length_eq_zero.mp hlen.symm
  · intro h
    rw [h]
    rfl

/-- On a configuration with nonempty waypoints the return resolver never
throws. -/
theorem calculateGlidepathReturn_ok (age : ℝ) (config : DynamicGlidepathConfig)
    (startAge endAge : ℝ) (hcfg : waypointsOk config) :
    ∃ r, calculateGlidepathReturn age config startAge endAge = .ok r := by
  cases config with
  | fixedReturn startReturn endReturn => exact ⟨_, rfl⟩
  | steppedReturn baseReturn declineRate terminalReturn declineStartAge terminalAge =>
    exact ⟨_, rfl⟩
  | allocationBased startEquityWeight endEquityWeight equityReturn bondReturn =>
    exact ⟨_, rfl⟩
  | customWaypoints valueType waypoints equityReturn bondReturn =>
    have hne : sortWaypoints waypoints ≠ [] := by
      rw [Ne, sortWaypoints_eq_nil_iff]
      exact hcfg
    cases hs : sortWaypoints waypoints with
    | nil => exact absurd hs hne
    | cons w ws =>
      cases valueType with
      | returnValue =>
        exact ⟨interpolateWaypointsNE age w ws, by
          simp only [calculateGlidepathReturn, calculateCustomWaypointsGlidepath, hs]⟩
      | equityWeight =>
        exact ⟨calculateBlendedReturn (interpolateWaypointsNE age w ws)
          (equityReturn.getD 0.1) (bondReturn.getD 0.04), by
          simp only [calculateGlidepathReturn, calculateCustomWaypointsGlidepath, hs]⟩

/-- Structure of a successful simulation run: it returns exactly `fuel`
entries, and the entry at offset `i` is the recorded entry for month
`month + i`, whose return fields come from the resolver at its age. -/
theorem simulateMonths_spec (P : SimParams) (hcfg : waypointsOk P.config) :
    ∀ (fuel month : ℕ) (s : SimState),
      ∃ sF es, simulateMonths P month fuel s = .ok (sF, es) ∧ es.length = fuel ∧
        ∀ i, i < fuel →
          ∃ e, es[i]? = some e ∧ e.month = month + i ∧
            e.age = P.startAge + (((month + i : ℕ) : ℝ) - 1) / 12 ∧
            calculateGlidepathReturn e.age P.config P.startAge P.endAge =
              .ok e.currentAnnualReturn ∧
            e.currentMonthlyReturn = convertAnnualToMonthlyRate e.currentAnnualReturn := by
  intro fuel
  induction fuel with
  | zero =>
    intro month s
    exact ⟨s, [], rfl, rfl, fun i hi => absurd hi (by omega)⟩
  | succ n ih =>
    intro month s
    obtain ⟨r, hr⟩ :=
      calculateGlidepathReturn_ok (ageInMonth P month) P.config P.startAge P.endAge hcfg
    obtain ⟨sF, es, hrun, hlen, hent⟩ := ih (month + 1) (monthState P month r s)
    refine ⟨sF, monthEntry P month r s :: es, ?_, by simp [hlen], ?_⟩
    · simp only [simulateMonths, hr, hrun]
    · intro i hi
      cases i with
      | zero =>
        refine ⟨monthEntry P month r s, by simp, ?_, ?_, ?_, ?_⟩
        · rfl
        · simp [monthEntry, ageInMonth]
        · simpa [monthEntry, ageInMonth] using hr
        · rfl
      | succ j =>
        obtain ⟨e, he, hm, ha, hcalc, hconv⟩ := hent j (by omega)
        refine ⟨e, by simpa using he, ?_, ?_, hcalc, hconv⟩
        · rw [hm]; omega
        · rw [ha, show month + 1 + j = month + (j + 1) from by omega]

/-- One month of state updates preserves the ledger identity
`balance = B₀ + totalContributions + totalInterestEarned`. -/
theorem monthState_invariant (P : SimParams) (month : ℕ) (r : ℝ) (s : SimState) (B0 : ℝ)
    (hs : s.balance = B0 + s.totalContributions + s.totalInterestEarned) :
    (monthState P month r s).balance =
      B0 + (monthState P month r s).totalContributions +
        (monthState P month r s).totalInterestEarned := by
  simp only [monthState, postContribState, postInterestState, preContribState]
  split_ifs <;> dsimp <;> linarith

/-- The ledger invariant: every recorded entry satisfies
`currentBalance = B₀ + cumulativeContributions + cumulativeInterest`, and
the final state satisfies the same identity, whenever the initial state
does. -/
theorem simulateMonths_invariant (P : SimParams) (B0 : ℝ) :
    ∀ (fuel month : ℕ) (s : SimState),
      s.balance = B0 + s.totalContributions + s.totalInterestEarned →
      ∀ sF es, simulateMonths P month fuel s = .ok (sF, es) →
        (sF.balance = B0 + sF.totalContributions + sF.totalInterestEarned ∧
          ∀ e ∈ es,
            e.currentBalance = B0 + e.cumulativeContributions + e.cumulativeInterest) := by
  intro fuel
  induction fuel with
  | zero =>
    intro month s hs sF es hrun
    simp only [simulateMonths, Except.ok.injEq, Prod.mk.injEq] at hrun
    obtain ⟨rfl, rfl⟩ := hrun
    exact ⟨hs, by simp⟩
  | succ n ih =>
    intro month s hs sF es hrun
    cases hr : calculateGlidepathReturn (ageInMonth P month) P.config P.startAge P.endAge with
    | error msg =>
      simp only [simulateMonths, hr] at hrun
      exact absurd hrun (by simp)
    | ok r =>
      cases hrun2 : simulateMonths P (month + 1) n (monthState P month r s) with
      | error msg =>
        simp only [simulateMonths, hr, hrun2] at hrun
        exact absurd hrun (by simp)
      | ok out =>
        obtain ⟨sF', rest⟩ := out
        simp only [simulateMonths, hr, hrun2, Except.ok.injEq, Prod.mk.injEq] at hrun
        obtain ⟨rfl, rfl⟩ := hrun
        have hinv := monthState_invariant P month r s B0 hs
        obtain ⟨hfin, hall⟩ := ih (month + 1) _ hinv sF' rest hrun2
        refine ⟨hfin, ?_⟩
        intro e he
        rcases List.mem_cons.mp he with rfl | hmem
        · simpa only [monthEntry] using hinv
        · exact hall e hmem

/-- The last entry of a run with at least one month records exactly the
final state of the loop. -/
theorem simulateMonths_getLast (P : SimParams) :
    ∀ (fuel month : ℕ) (s sF : SimState) (es : List MonthlyTimelineEntry), 0 < fuel →
      simulateMonths P month fuel s = .ok (sF, es) →
      ∃ e, es.getLast? = some e ∧ e.currentBalance = sF.balance ∧
        e.cumulativeContributions = sF.totalContributions ∧
        e.cumulativeInterest = sF.totalInterestEarned := by
  intro fuel
  induction fuel with
  | zero => intro month s sF es hf hrun; exact absurd hf (by omega)
  | succ n ih =>
    intro month s sF es hf hrun
    cases hr : calculateGlidepathReturn (ageInMonth P month) P.config P.startAge P.endAge with
    | error msg =>
      simp only [simulateMonths, hr] at hrun
      exact absurd hrun (by simp)
    | ok r =>
      cases hrun2 : simulateMonths P (month + 1) n (monthState P month r s) with
      | error msg =>
        simp only [simulateMonths, hr, hrun2] at hrun
        exact absurd hrun (by simp)
      | ok out =>
        obtain ⟨sF', rest⟩ := out
        simp only [simulateMonths, hr, hrun2, Except.ok.injEq, Prod.mk.injEq] at hrun
        obtain ⟨rfl, rfl⟩ := hrun
        cases n with
        | zero =>
          simp only [simulateMonths, Except.ok.injEq, Prod.mk.injEq] at hrun2
          obtain ⟨rfl, rfl⟩ := hrun2
          exact ⟨monthEntry P month r s, by simp, rfl, rfl, rfl⟩
        | succ m =>
          obtain ⟨e, he, h1, h2, h3⟩ :=
            ih (month + 1) (monthState P month r s) sF' rest (by omega) hrun2
          refine ⟨e, ?_, h1, h2, h3⟩
          cases rest with
          | nil => simp at he
          | cons a t =>
            rw [List.getLast?_cons_cons]
            exact he

/-- On a custom-waypoints configuration with an empty waypoint list, the
loop throws in its first month. -/
theorem simulateMonths_error_of_empty (P : SimParams) (hempty : hasEmptyWaypoints P.config) :
    ∀ (fuel month : ℕ) (s : SimState), 0 < fuel →
      ∃ msg, simulateMonths P month fuel s = .error msg := by
  intro fuel month s hf
  cases fuel with
  | zero => exact absurd hf (by omega)
  | succ n =>
    cases hconf : P.config with
    | fixedReturn startReturn endReturn =>
      rw [hconf] at hempty; simp [hasEmptyWaypoints] at hempty
    | steppedReturn baseReturn declineRate terminalReturn declineStartAge terminalAge =>
      rw [hconf] at hempty; simp [hasEmptyWaypoints] at hempty
    | allocationBased startEquityWeight endEquityWeight equityReturn bondReturn =>
      rw [hconf] at hempty; simp [hasEmptyWaypoints] at hempty
    | customWaypoints valueType waypoints equityReturn bondReturn =>
      rw [hconf] at hempty
      simp only [hasEmptyWaypoints] at hempty
      subst hempty
      refine ⟨"Custom waypoints configuration must have at least one waypoint", ?_⟩
      simp only [simulateMonths, calculateGlidepathReturn,
        calculateCustomWaypointsGlidepath, hconf, sortWaypoints, List.insertionSort]

/-- Under passing validation and nonempty waypoints,
`getCompoundInterestWithGlidepath` succeeds and returns the result built
from the monthly simulation. -/
theorem getCompoundInterestWithGlidepath_ok
    (initialBalance contributionAmount startAge endAge : ℝ)
    (glidepathConfig : DynamicGlidepathConfig)
    (contributionFrequency compoundingFrequency : ℝ)
    (contributionTiming : ContributionTiming)
    (h1 : 0 ≤ initialBalance) (h2 : 0 ≤ contributionAmount) (h3 : 0 < startAge)
    (h4 : 0 < endAge) (h5 : startAge < endAge) (h6 : 0 < contributionFrequency)
    (h7 : 0 < compoundingFrequency) (sF : SimState) (es : List MonthlyTimelineEntry)
    (hrun : simulateMonths
      (glidepathParams startAge endAge glidepathConfig contributionAmount
        contributionFrequency compoundingFrequency contributionTiming)
      1 (totalMonthsFor startAge endAge) ⟨initialBalance, 0, 0⟩ = .ok (sF, es)) :
    getCompoundInterestWithGlidepath initialBalance contributionAmount startAge endAge
        glidepathConfig contributionFrequency compoundingFrequency contributionTiming =
      .ok (buildGlidepathResult initialBalance startAge endAge glidepathConfig
        (totalMonthsFor startAge endAge) sF es) := by
  rw [getCompoundInterestWithGlidepath, if_neg (not_lt.mpr h1), if_neg (not_lt.mpr h2),
    if_neg (by push_neg; exact ⟨h3, h4⟩), if_neg (not_le.mpr h5),
    if_neg (by push_neg; exact ⟨h6, h7⟩), hrun]

/-- A successful simulation always covers at least one month: validation
guarantees `startAge < endAge`, so `⌈(endAge - startAge) * 12⌉ ≥ 1`. -/
theorem totalMonthsFor_pos (startAge endAge : ℝ) (h : startAge < endAge) :
    0 < totalMonthsFor startAge endAge := by
  rw [totalMonthsFor]
  have hpos : (0 : ℝ) < (endAge - startAge) * 12 := by nlinarith
  have hc : (1 : ℤ) ≤ ⌈(endAge - startAge) * 12⌉ := by
    exact_mod_cast Int.ceil_pos.mpr hpos
  omega

/-- C1: for every input passing validation (including a nonempty waypoint
list, which the resolver checks at first use), the call succeeds with a
timeline of exactly `⌈(endAge - startAge) * 12⌉` entries, whose `i+1`-st
entry has `month = i+1`, `age = startAge + ((i+1) - 1)/12`,
`currentAnnualReturn` equal to the resolver value at that age, and
`currentMonthlyReturn = (1 + currentAnnualReturn)^(1/12) - 1`. -/
theorem glidepath_timeline_structure
    (initialBalance contributionAmount startAge endAge : ℝ)
    (glidepathConfig : DynamicGlidepathConfig)
    (contributionFrequency compoundingFrequency : ℝ) (timing : ContributionTiming)
    (h1 : 0 ≤ initialBalance) (h2 : 0 ≤ contributionAmount) (h3 : 0 < startAge)
    (h4 : 0 < endAge) (h5 : startAge < endAge) (h6 : 0 < contributionFrequency)
    (h7 : 0 < compoundingFrequency) (hcfg : waypointsOk glidepathConfig) :
    ∃ res, getCompoundInterestWithGlidepath initialBalance contributionAmount startAge
        endAge glidepathConfig contributionFrequency compoundingFrequency timing =
        .ok res ∧
      res.monthlyTimeline.length = (⌈(endAge - startAge) * 12⌉).toNat ∧
      ∀ i, i < res.monthlyTimeline.length →
        ∃ e, res.monthlyTimeline[i]? = some e ∧ e.month = i + 1 ∧
          e.age = startAge + (((i + 1 : ℕ) : ℝ) - 1) / 12 ∧
          calculateGlidepathReturn e.age glidepathConfig startAge endAge =
            .ok e.currentAnnualReturn ∧
          e.currentMonthlyReturn = (1 + e.currentAnnualReturn) ^ ((1 : ℝ) / 12) - 1 := by
  obtain ⟨sF, es, hrun, hlen, hent⟩ := simulateMonths_spec
    (glidepathParams startAge endAge glidepathConfig contributionAmount
      contributionFrequency compoundingFrequency timing) hcfg
    (totalMonthsFor startAge endAge) 1 ⟨initialBalance, 0, 0⟩
  refine ⟨_, getCompoundInterestWithGlidepath_ok initialBalance contributionAmount startAge
    endAge glidepathConfig contributionFrequency compoundingFrequency timing
    h1 h2 h3 h4 h5 h6 h7 sF es hrun, ?_, ?_⟩
  · simp only [buildGlidepathResult]
    rw [hlen, totalMonthsFor]
  · intro i hi
    simp only [buildGlidepathResult] at hi ⊢
    rw [hlen] at hi
    obtain ⟨e, he, hm, ha, hcalc, hconv⟩ := hent i hi
    simp only [glidepathParams] at ha hcalc
    refine ⟨e, he, ?_, ?_, hcalc, ?_⟩
    · rw [hm]; omega
    · rw [ha, show 1 + i = i + 1 from by omega]
    · rw [hconv, convertAnnualToMonthlyRate]

/-- Witness for C1 at a concrete valid input. -/
theorem glidepath_timeline_structure_witness :
    ∃ res, getCompoundInterestWithGlidepath 0 100 30 31
        (DynamicGlidepathConfig.fixedReturn 0.1 0.055) 12 12 ContributionTiming.start =
        .ok res ∧
      res.monthlyTimeline.length = (⌈((31 : ℝ) - 30) * 12⌉).toNat ∧
      ∀ i, i < res.monthlyTimeline.length →
        ∃ e, res.monthlyTimeline[i]? = some e ∧ e.month = i + 1 ∧
          e.age = 30 + (((i + 1 : ℕ) : ℝ) - 1) / 12 ∧
          calculateGlidepathReturn e.age (DynamicGlidepathConfig.fixedReturn 0.1 0.055)
            30 31 = .ok e.currentAnnualReturn ∧
          e.currentMonthlyReturn = (1 + e.currentAnnualReturn) ^ ((1 : ℝ) / 12) - 1 :=
  glidepath_timeline_structure 0 100 30 31 (DynamicGlidepathConfig.fixedReturn 0.1 0.055)
    12 12 ContributionTiming.start (by norm_num) (by norm_num) (by norm_num) (by norm_num)
    (by norm_num) (by norm_num) (by norm_num) trivial

/-- C10: on every successful run each timeline entry satisfies
`currentBalance = initialBalance + cumulativeContributions +
cumulativeInterest`; the last entry's cumulative totals equal the result's
totals, and `finalBalance` is the last entry's balance rounded to cents via
`round(balance * 100) / 100`. -/
theorem glidepath_ledger_invariant
    (initialBalance contributionAmount startAge endAge : ℝ)
    (glidepathConfig : DynamicGlidepathConfig)
    (contributionFrequency compoundingFrequency : ℝ) (timing : ContributionTiming)
    (h1 : 0 ≤ initialBalance) (h2 : 0 ≤ contributionAmount) (h3 : 0 < startAge)
    (h4 : 0 < endAge) (h5 : startAge < endAge) (h6 : 0 < contributionFrequency)
    (h7 : 0 < compoundingFrequency) (hcfg : waypointsOk glidepathConfig) :
    ∃ res, getCompoundInterestWithGlidepath initialBalance contributionAmount startAge
        endAge glidepathConfig contributionFrequency compoundingFrequency timing =
        .ok res ∧
      (∀ e ∈ res.monthlyTimeline,
        e.currentBalance = initialBalance + e.cumulativeContributions +
          e.cumulativeInterest) ∧
      ∃ last, res.monthlyTimeline.getLast? = some last ∧
        last.cumulativeContributions = res.totalContributions ∧
        last.cumulativeInterest = res.totalInterestEarned ∧
        res.finalBalance = jsRound (last.currentBalance * 100) / 100 := by
  obtain ⟨sF, es, hrun, hlen, hent⟩ := simulateMonths_spec
    (glidepathParams startAge endAge glidepathConfig contributionAmount
      contributionFrequency compoundingFrequency timing) hcfg
    (totalMonthsFor startAge endAge) 1 ⟨initialBalance, 0, 0⟩
  obtain ⟨hfin, hall⟩ := simulateMonths_invariant
    (glidepathParams startAge endAge glidepathConfig contributionAmount
      contributionFrequency compoundingFrequency timing) initialBalance
    (totalMonthsFor startAge endAge) 1 ⟨initialBalance, 0, 0⟩ (by simp) sF es hrun
  obtain ⟨last, hlast, hb, hc, hi⟩ := simulateMonths_getLast
    (glidepathParams startAge endAge glidepathConfig contributionAmount
      contributionFrequency compoundingFrequency timing)
    (totalMonthsFor startAge endAge) 1 ⟨initialBalance, 0, 0⟩ sF es
    (totalMonthsFor_pos startAge endAge h5) hrun
  refine ⟨_, getCompoundInterestWithGlidepath_ok initialBalance contributionAmount startAge
    endAge glidepathConfig contributionFrequency compoundingFrequency timing
    h1 h2 h3 h4 h5 h6 h7 sF es hrun, ?_, ?_⟩
  · simpa only [buildGlidepathResult] using hall
  · refine ⟨last, by simpa only [buildGlidepathResult] using hlast, ?_, ?_, ?_⟩
    · simp only [buildGlidepathResult]
      exact hc
    · simp only [buildGlidepathResult]
      exact hi
    · simp only [buildGlidepathResult]
      rw [hb]

/-- Witness for C10 at a concrete valid input. -/
theorem glidepath_ledger_invariant_witness :
    ∃ res, getCompoundInterestWithGlidepath 1000 50 25 65
        (DynamicGlidepathConfig.steppedReturn 0.1 0.001 0.055 20 65) 12 12
        ContributionTiming.end_ = .ok res ∧
      (∀ e ∈ res.monthlyTimeline,
        e.currentBalance = 1000 + e.cumulativeContributions + e.cumulativeInterest) ∧
      ∃ last, res.monthlyTimeline.getLast? = some last ∧
        last.cumulativeContributions = res.totalContributions ∧
        last.cumulativeInterest = res.totalInterestEarned ∧
        res.finalBalance = jsRound (last.currentBalance * 100) / 100 :=
  glidepath_ledger_invariant 1000 50 25 65
    (DynamicGlidepathConfig.steppedReturn 0.1 0.001 0.055 20 65) 12 12
    ContributionTiming.end_ (by norm_num) (by norm_num) (by norm_num) (by norm_num)
    (by norm_num) (by norm_num) (by norm_num) trivial

/-- C3: the stepped-return resolver returns `baseReturn` before the decline
start age, `terminalReturn` from the terminal age on, and otherwise the
linear decline floored at `terminalReturn`; consequently, with the
Money-Guy configuration `(0.1, 0.001, 0.055, 20, 65)` every timeline entry
has `currentAnnualReturn ≥ 0.055`, exactly `0.1` below age 20 and exactly
`0.055` at or above age 65. -/
theorem stepped_return_floor :
    (∀ (startAge endAge age baseReturn declineRate terminalReturn declineStartAge
        terminalAge : ℝ),
        calculateGlidepathReturn age
            (DynamicGlidepathConfig.steppedReturn baseReturn declineRate terminalReturn
              declineStartAge terminalAge) startAge endAge =
          .ok (if age < declineStartAge then baseReturn
            else if terminalAge ≤ age then terminalReturn
            else max (baseReturn - (age - declineStartAge) * declineRate) terminalReturn)) ∧
      ∀ (initialBalance contributionAmount startAge endAge
          contributionFrequency compoundingFrequency : ℝ) (timing : ContributionTiming),
        0 ≤ initialBalance → 0 ≤ contributionAmount → 0 < startAge → 0 < endAge →
        startAge < endAge → 0 < contributionFrequency → 0 < compoundingFrequency →
        ∃ res, getCompoundInterestWithGlidepath initialBalance contributionAmount startAge
            endAge (DynamicGlidepathConfig.steppedReturn 0.1 0.001 0.055 20 65)
            contributionFrequency compoundingFrequency timing = .ok res ∧
          ∀ e ∈ res.monthlyTimeline,
            0.055 ≤ e.currentAnnualReturn ∧
            (e.age < 20 → e.currentAnnualReturn = 0.1) ∧
            (65 ≤ e.age → e.currentAnnualReturn = 0.055) := by
  constructor
  · intro startAge endAge age baseReturn declineRate terminalReturn declineStartAge
      terminalAge
    rfl
  · intro initialBalance contributionAmount startAge endAge contributionFrequency
      compoundingFrequency timing h1 h2 h3 h4 h5 h6 h7
    obtain ⟨sF, es, hrun, hlen, hent⟩ := simulateMonths_spec
      (glidepathParams startAge endAge
        (DynamicGlidepathConfig.steppedReturn 0.1 0.001 0.055 20 65) contributionAmount
        contributionFrequency compoundingFrequency timing) trivial
      (totalMonthsFor startAge endAge) 1 ⟨initialBalance, 0, 0⟩
    refine ⟨_, getCompoundInterestWithGlidepath_ok initialBalance contributionAmount
      startAge endAge _ contributionFrequency compoundingFrequency timing
      h1 h2 h3 h4 h5 h6 h7 sF es hrun, ?_⟩
    intro e he
    simp only [buildGlidepathResult] at he
    obtain ⟨i, hi, hei⟩ := List.mem_iff_getElem.mp he
    obtain ⟨e', he', hm, ha, hcalc, hconv⟩ := hent i (hlen ▸ hi)
    have hee : e' = e := by
      rw [List.getElem?_eq_getElem hi, Option.some.injEq] at he'
      rw [← he', hei]
    subst hee
    simp only [glidepathParams, calculateGlidepathReturn, Except.ok.injEq] at hcalc
    refine ⟨?_, ?_, ?_⟩
    · rw [← hcalc, calculateSteppedReturnGlidepath]
      split_ifs with hc1 hc2
      · norm_num
      · norm_num
      · exact le_max_right _ _
    · intro hage
      rw [← hcalc, calculateSteppedReturnGlidepath, if_pos hage]
    · intro hage
      rw [← hcalc, calculateSteppedReturnGlidepath, if_neg (by linarith), if_pos hage]

/-- Witness for C3 at a concrete valid input. -/
theorem stepped_return_floor_witness :
    ∃ res, getCompoundInterestWithGlidepath 0 100 30 31
        (DynamicGlidepathConfig.steppedReturn 0.1 0.001 0.055 20 65) 12 12
        ContributionTiming.start = .ok res ∧
      ∀ e ∈ res.monthlyTimeline,
        0.055 ≤ e.currentAnnualReturn ∧
        (e.age < 20 → e.currentAnnualReturn = 0.1) ∧
        (65 ≤ e.age → e.currentAnnualReturn = 0.055) :=
  stepped_return_floor.2 0 100 30 31 12 12 ContributionTiming.start (by norm_num)
    (by norm_num) (by norm_num) (by norm_num) (by norm_num) (by norm_num) (by norm_num)

/-- C9: both engines derive `effectiveAnnualReturn` as `0` when no interest
accrued, else against total contributions when the initial balance is zero
(`0` when contributions are not positive), else against the initial
balance; `averageAnnualInterestRate` is
`totalInterest / years / (initialBalance + totalContributions)` when both
invested principal and interest are positive, else `0`.  For the glidepath
engine, `balance` is the last timeline entry's (unrounded) balance and
`years = endAge - startAge`. -/
theorem summary_rate_formulas :
    (∀ (initialBalance amount years rate cf kf : ℝ),
        (getCompoundInterestWithAdditionalContributions initialBalance amount years rate
              cf kf).effectiveAnnualReturn =
          (if (getCompoundInterestWithAdditionalContributions initialBalance amount years
                rate cf kf).totalInterestEarned = 0 then 0
            else if initialBalance = 0 then
              if 0 < (getCompoundInterestWithAdditionalContributions initialBalance amount
                  years rate cf kf).totalContributions then
                ((getCompoundInterestWithAdditionalContributions initialBalance amount
                      years rate cf kf).balance /
                    (getCompoundInterestWithAdditionalContributions initialBalance amount
                      years rate cf kf).totalContributions) ^ ((1 : ℝ) / years) - 1
              else 0
            else ((getCompoundInterestWithAdditionalContributions initialBalance amount
                  years rate cf kf).balance / initialBalance) ^ ((1 : ℝ) / years) - 1) ∧
        (getCompoundInterestWithAdditionalContributions initialBalance amount years rate
              cf kf).averageAnnualInterestRate =
          (if 0 < initialBalance + (getCompoundInterestWithAdditionalContributions
                initialBalance amount years rate cf kf).totalContributions ∧
              0 < (getCompoundInterestWithAdditionalContributions initialBalance amount
                years rate cf kf).totalInterestEarned then
            (getCompoundInterestWithAdditionalContributions initialBalance amount years
                rate cf kf).totalInterestEarned / years /
              (initialBalance + (getCompoundInterestWithAdditionalContributions
                initialBalance amount years rate cf kf).totalContributions)
          else 0)) ∧
      ∀ (initialBalance contributionAmount startAge endAge : ℝ)
        (glidepathConfig : DynamicGlidepathConfig)
        (contributionFrequency compoundingFrequency : ℝ) (timing : ContributionTiming),
        0 ≤ initialBalance → 0 ≤ contributionAmount → 0 < startAge → 0 < endAge →
        startAge < endAge → 0 < contributionFrequency → 0 < compoundingFrequency →
        waypointsOk glidepathConfig →
        ∃ res last, getCompoundInterestWithGlidepath initialBalance contributionAmount
            startAge endAge glidepathConfig contributionFrequency compoundingFrequency
            timing = .ok res ∧
          res.monthlyTimeline.getLast? = some last ∧
          res.effectiveAnnualReturn =
            (if res.totalInterestEarned = 0 then 0
              else if initialBalance = 0 then
                if 0 < res.totalContributions then
                  (last.currentBalance / res.totalContributions) ^
                    ((1 : ℝ) / (endAge - startAge)) - 1
                else 0
              else (last.currentBalance / initialBalance) ^
                ((1 : ℝ) / (endAge - startAge)) - 1) ∧
          res.averageAnnualInterestRate =
            (if 0 < initialBalance + res.totalContributions ∧
                0 < res.totalInterestEarned then
              res.totalInterestEarned / (endAge - startAge) /
                (initialBalance + res.totalContributions)
            else 0) := by
  constructor
  · intro initialBalance amount years rate cf kf
    exact ⟨rfl, rfl⟩
  · intro initialBalance contributionAmount startAge endAge glidepathConfig
      contributionFrequency compoundingFrequency timing h1 h2 h3 h4 h5 h6 h7 hcfg
    obtain ⟨sF, es, hrun, hlen, hent⟩ := simulateMonths_spec
      (glidepathParams startAge endAge glidepathConfig contributionAmount
        contributionFrequency compoundingFrequency timing) hcfg
      (totalMonthsFor startAge endAge) 1 ⟨initialBalance, 0, 0⟩
    obtain ⟨last, hlast, hb, hc, hi⟩ := simulateMonths_getLast
      (glidepathParams startAge endAge glidepathConfig contributionAmount
        contributionFrequency compoundingFrequency timing)
      (totalMonthsFor startAge endAge) 1 ⟨initialBalance, 0, 0⟩ sF es
      (totalMonthsFor_pos startAge endAge h5) hrun
    refine ⟨_, last, getCompoundInterestWithGlidepath_ok initialBalance contributionAmount
      startAge endAge glidepathConfig contributionFrequency compoundingFrequency timing
      h1 h2 h3 h4 h5 h6 h7 sF es hrun, ?_, ?_, ?_⟩
    · simpa only [buildGlidepathResult] using hlast
    · simp only [buildGlidepathResult]
      rw [hb]
    · simp only [buildGlidepathResult]

/-- Witness for C9 at a concrete valid input. -/
theorem summary_rate_formulas_witness :
    ∃ res last, getCompoundInterestWithGlidepath 0 100 30 31
        (DynamicGlidepathConfig.fixedReturn 0.1 0.055) 12 12 ContributionTiming.start =
        .ok res ∧
      res.monthlyTimeline.getLast? = some last ∧
      res.effectiveAnnualReturn =
        (if res.totalInterestEarned = 0 then 0
          else if (0 : ℝ) = 0 then
            if 0 < res.totalContributions then
              (last.currentBalance / res.totalContributions) ^
                ((1 : ℝ) / ((31 : ℝ) - 30)) - 1
            else 0
          else (last.currentBalance / 0) ^ ((1 : ℝ) / ((31 : ℝ) - 30)) - 1) ∧
      res.averageAnnualInterestRate =
        (if 0 < (0 : ℝ) + res.totalContributions ∧ 0 < res.totalInterestEarned then
          res.totalInterestEarned / ((31 : ℝ) - 30) / ((0 : ℝ) + res.totalContributions)
        else 0) :=
  summary_rate_formulas.2 0 100 30 31 (DynamicGlidepathConfig.fixedReturn 0.1 0.055) 12 12
    ContributionTiming.start (by norm_num) (by norm_num) (by norm_num) (by norm_num)
    (by norm_num) (by norm_num) (by norm_num) trivial

/-- A configuration is resolver-safe exactly when it is not an
empty-waypoints custom configuration. -/
theorem waypointsOk_iff_not_empty (config : DynamicGlidepathConfig) :
    waypointsOk config ↔ ¬ hasEmptyWaypoints config := by
  cases config <;> simp [waypointsOk, hasEmptyWaypoints]

/-- C5: the glidepath engine raises an error if and only if the initial
balance or contribution is negative, an age is nonpositive, the start age
is not below the end age, a frequency is nonpositive, or the configuration
is a custom-waypoints configuration with an empty waypoint list (the only
mode error expressible in the typed model); otherwise it returns a
complete result. -/
theorem glidepath_error_iff
    (initialBalance contributionAmount startAge endAge : ℝ)
    (glidepathConfig : DynamicGlidepathConfig)
    (contributionFrequency compoundingFrequency : ℝ) (timing : ContributionTiming) :
    (∃ msg, getCompoundInterestWithGlidepath initialBalance contributionAmount startAge
        endAge glidepathConfig contributionFrequency compoundingFrequency timing =
        .error msg) ↔
      (initialBalance < 0 ∨ contributionAmount < 0 ∨ startAge ≤ 0 ∨ endAge ≤ 0 ∨
        endAge ≤ startAge ∨ contributionFrequency ≤ 0 ∨ compoundingFrequency ≤ 0 ∨
        hasEmptyWaypoints glidepathConfig) := by
  constructor
  · rintro ⟨msg, hmsg⟩
    by_contra hcon
    push_neg at hcon
    obtain ⟨h1, h2, h3, h4, h5, h6, h7, h8⟩ := hcon
    obtain ⟨sF, es, hrun, _, _⟩ := simulateMonths_spec
      (glidepathParams startAge endAge glidepathConfig contributionAmount
        contributionFrequency compoundingFrequency timing)
      ((waypointsOk_iff_not_empty glidepathConfig).mpr h8)
      (totalMonthsFor startAge endAge) 1 ⟨initialBalance, 0, 0⟩
    rw [getCompoundInterestWithGlidepath_ok initialBalance contributionAmount startAge
      endAge glidepathConfig contributionFrequency compoundingFrequency timing
      h1 h2 h3 h4 h5 h6 h7 sF es hrun] at hmsg
    exact absurd hmsg (by simp)
  · intro h
    by_cases c1 : initialBalance < 0
    · exact ⟨_, by rw [getCompoundInterestWithGlidepath, if_pos c1]⟩
    by_cases c2 : contributionAmount < 0
    · exact ⟨_, by rw [getCompoundInterestWithGlidepath, if_neg c1, if_pos c2]⟩
    by_cases c3 : startAge ≤ 0 ∨ endAge ≤ 0
    · exact ⟨_, by rw [getCompoundInterestWithGlidepath, if_neg c1, if_neg c2, if_pos c3]⟩
    by_cases c4 : endAge ≤ startAge
    · exact ⟨_, by rw [getCompoundInterestWithGlidepath, if_neg c1, if_neg c2, if_neg c3,
        if_pos c4]⟩
    by_cases c5 : contributionFrequency ≤ 0 ∨ compoundingFrequency ≤ 0
    · exact ⟨_, by rw [getCompoundInterestWithGlidepath, if_neg c1, if_neg c2, if_neg c3,
        if_neg c4, if_pos c5]⟩
    have hempty : hasEmptyWaypoints glidepathConfig := by
      rcases h with h | h | h | h | h | h | h | h
      · exact absurd h c1
      · exact absurd h c2
      · exact absurd (Or.inl h) c3
      · exact absurd (Or.inr h) c3
      · exact absurd h c4
      · exact absurd (Or.inl h) c5
      · exact absurd (Or.inr h) c5
      · exact h
    obtain ⟨msg, hloop⟩ := simulateMonths_error_of_empty
      (glidepathParams startAge endAge glidepathConfig contributionAmount
        contributionFrequency compoundingFrequency timing) hempty
      (totalMonthsFor startAge endAge) 1 ⟨initialBalance, 0, 0⟩
      (totalMonthsFor_pos startAge endAge (not_le.mp c4))
    exact ⟨msg, by
      simp only [getCompoundInterestWithGlidepath, if_neg c1, if_neg c2, if_neg c3,
        if_neg c4, if_neg c5, hloop]⟩

/-- A nonnegative annual rate converts to a nonnegative monthly rate. -/
theorem convertAnnualToMonthlyRate_nonneg (r : ℝ) (hr : 0 ≤ r) :
    0 ≤ convertAnnualToMonthlyRate r := by
  rw [convertAnnualToMonthlyRate, sub_nonneg]
  calc (1 : ℝ) = 1 ^ ((1 : ℝ) / 12) := (Real.one_rpow _).symm
  _ ≤ (1 + r) ^ ((1 : ℝ) / 12) :=
    Real.rpow_le_rpow (by norm_num) (by linarith) (by norm_num)

/-- A positive annual rate converts to a positive monthly rate. -/
theorem convertAnnualToMonthlyRate_pos (r : ℝ) (hr : 0 < r) :
    0 < convertAnnualToMonthlyRate r := by
  rw [convertAnnualToMonthlyRate, sub_pos]
  calc (1 : ℝ) = 1 ^ ((1 : ℝ) / 12) := (Real.one_rpow _).symm
  _ < (1 + r) ^ ((1 : ℝ) / 12) :=
    Real.rpow_lt_rpow (by norm_num) (by linarith) (by norm_num)

/-- The month's contribution does not depend on the contribution timing. -/
theorem contributionForMonth_timing (startAge endAge : ℝ) (config : DynamicGlidepathConfig)
    (contributionAmount howOften mult : ℝ) (t t' : ContributionTiming) (month : ℕ) :
    contributionForMonth ⟨startAge, endAge, config, contributionAmount, howOften, mult, t⟩
        month =
      contributionForMonth ⟨startAge, endAge, config, contributionAmount, howOften, mult,
        t'⟩ month := rfl

/-- With timing `'start'` and a nonnegative contribution, the month's
closing balance is `(balance + contribution) * (1 + monthlyRate)`. -/
theorem monthState_start_balance (startAge endAge : ℝ) (config : DynamicGlidepathConfig)
    (contributionAmount howOften mult : ℝ) (month : ℕ) (r : ℝ) (s : SimState)
    (hc : 0 ≤ contributionForMonth
      ⟨startAge, endAge, config, contributionAmount, howOften, mult,
        ContributionTiming.start⟩ month) :
    (monthState ⟨startAge, endAge, config, contributionAmount, howOften, mult,
        ContributionTiming.start⟩ month r s).balance =
      (s.balance + contributionForMonth ⟨startAge, endAge, config, contributionAmount,
        howOften, mult, ContributionTiming.start⟩ month) *
        (1 + convertAnnualToMonthlyRate r) := by
  simp only [monthState, postContribState, postInterestState, preContribState]
  split_ifs with h1 h2 h3 <;> simp_all <;> ring_nf <;>
    first
      | rfl
      | (have hc0 : contributionForMonth ⟨startAge, endAge, config, contributionAmount,
          howOften, mult, ContributionTiming.start⟩ month = 0 := le_antisymm (by linarith) hc
         rw [hc0]; ring)

/-- With timing `'end'` and a nonnegative contribution, the month's closing
balance is `balance * (1 + monthlyRate) + contribution`. -/
theorem monthState_end_balance (startAge endAge : ℝ) (config : DynamicGlidepathConfig)
    (contributionAmount howOften mult : ℝ) (month : ℕ) (r : ℝ) (s : SimState)
    (hc : 0 ≤ contributionForMonth
      ⟨startAge, endAge, config, contributionAmount, howOften, mult,
        ContributionTiming.end_⟩ month) :
    (monthState ⟨startAge, endAge, config, contributionAmount, howOften, mult,
        ContributionTiming.end_⟩ month r s).balance =
      s.balance * (1 + convertAnnualToMonthlyRate r) +
        contributionForMonth ⟨startAge, endAge, config, contributionAmount, howOften,
          mult, ContributionTiming.end_⟩ month := by
  simp only [monthState, postContribState, postInterestState, preContribState]
  split_ifs with h1 h2 h3 <;> simp_all <;> ring_nf <;>
    first
      | rfl
      | (have hc0 : contributionForMonth ⟨startAge, endAge, config, contributionAmount,
          howOften, mult, ContributionTiming.end_⟩ month = 0 := le_antisymm (by linarith) hc
         rw [hc0]; ring)

/-- Core comparison between the two contribution timings: running the same
months from balances `s2.balance ≤ s1.balance`, the `'end'`-timed run never
overtakes the `'start'`-timed run; the gap is strict if it starts strict,
or if some simulated month both receives a contribution and has a positive
resolved annual return. -/
theorem simulateMonths_timing_le (startAge endAge : ℝ) (config : DynamicGlidepathConfig)
    (contributionAmount howOften mult : ℝ) (hca : 0 ≤ contributionAmount)
    (hmult : 0 ≤ mult)
    (hrates : ∀ age r,
      calculateGlidepathReturn age config startAge endAge = .ok r → 0 ≤ r) :
    ∀ (fuel month : ℕ) (s1 s2 sF1 sF2 : SimState)
      (es1 es2 : List MonthlyTimelineEntry),
      simulateMonths ⟨startAge, endAge, config, contributionAmount, howOften, mult,
        ContributionTiming.start⟩ month fuel s1 = .ok (sF1, es1) →
      simulateMonths ⟨startAge, endAge, config, contributionAmount, howOften, mult,
        ContributionTiming.end_⟩ month fuel s2 = .ok (sF2, es2) →
      s2.balance ≤ s1.balance →
      (sF2.balance ≤ sF1.balance ∧
        (s2.balance < s1.balance → sF2.balance < sF1.balance) ∧
        ((∃ i, i < fuel ∧
            0 < contributionForMonth ⟨startAge, endAge, config, contributionAmount,
              howOften, mult, ContributionTiming.start⟩ (month + i) ∧
            ∀ r, calculateGlidepathReturn
                (startAge + (((month + i : ℕ) : ℝ) - 1) / 12) config startAge endAge =
              .ok r → 0 < r) →
          sF2.balance < sF1.balance)) := by
  intro fuel
  induction fuel with
  | zero =>
    intro month s1 s2 sF1 sF2 es1 es2 h1 h2 hb
    simp only [simulateMonths, Except.ok.injEq, Prod.mk.injEq] at h1 h2
    obtain ⟨rfl, rfl⟩ := h1
    obtain ⟨rfl, rfl⟩ := h2
    exact ⟨hb, fun h => h, fun ⟨i, hi, _⟩ => absurd hi (by omega)⟩
  | succ n ih =>
    intro month s1 s2 sF1 sF2 es1 es2 h1 h2 hb
    cases hr : calculateGlidepathReturn (ageInMonth ⟨startAge, endAge, config,
        contributionAmount, howOften, mult, ContributionTiming.start⟩ month) config
        startAge endAge with
    | error msg =>
      simp only [simulateMonths, hr] at h1
      exact absurd h1 (by simp)
    | ok r =>
      have hrE : calculateGlidepathReturn (ageInMonth ⟨startAge, endAge, config,
          contributionAmount, howOften, mult, ContributionTiming.end_⟩ month) config
          startAge endAge = .ok r := hr
      cases hin1 : simulateMonths ⟨startAge, endAge, config, contributionAmount, howOften,
          mult, ContributionTiming.start⟩ (month + 1) n
          (monthState ⟨startAge, endAge, config, contributionAmount, howOften, mult,
            ContributionTiming.start⟩ month r s1) with
      | error msg =>
        simp only [simulateMonths, hr, hin1] at h1
        exact absurd h1 (by simp)
      | ok out1 =>
        obtain ⟨sF1', rest1⟩ := out1
        cases hin2 : simulateMonths ⟨startAge, endAge, config, contributionAmount,
            howOften, mult, ContributionTiming.end_⟩ (month + 1) n
            (monthState ⟨startAge, endAge, config, contributionAmount, howOften, mult,
              ContributionTiming.end_⟩ month r s2) with
        | error msg =>
          simp only [simulateMonths, hrE, hin2] at h2
          exact absurd h2 (by simp)
        | ok out2 =>
          obtain ⟨sF2', rest2⟩ := out2
          simp only [simulateMonths, hr, hin1, Except.ok.injEq, Prod.mk.injEq] at h1
          simp only [simulateMonths, hrE, hin2, Except.ok.injEq, Prod.mk.injEq] at h2
          obtain ⟨rfl, rfl⟩ := h1
          obtain ⟨rfl, rfl⟩ := h2
          have hrnn : 0 ≤ r := hrates _ r hr
          have hm : 0 ≤ convertAnnualToMonthlyRate r :=
            convertAnnualToMonthlyRate_nonneg r hrnn
          have hcS : 0 ≤ contributionForMonth ⟨startAge, endAge, config,
              contributionAmount, howOften, mult, ContributionTiming.start⟩ month := by
            rw [contributionForMonth]
            split_ifs
            · exact mul_nonneg hca hmult
            · exact le_refl 0
          have hcE : contributionForMonth ⟨startAge, endAge, config, contributionAmount,
              howOften, mult, ContributionTiming.end_⟩ month =
              contributionForMonth ⟨startAge, endAge, config, contributionAmount,
                howOften, mult, ContributionTiming.start⟩ month :=
            contributionForMonth_timing startAge endAge config contributionAmount howOften
              mult ContributionTiming.end_ ContributionTiming.start month
          have hS := monthState_start_balance startAge endAge config contributionAmount
            howOften mult month r s1 hcS
          have hE := monthState_end_balance startAge endAge config contributionAmount
            howOften mult month r s2 (hcE ▸ hcS)
          have hone : (0 : ℝ) ≤ 1 + convertAnnualToMonthlyRate r := by linarith
          have hbase : (monthState ⟨startAge, endAge, config, contributionAmount, howOften,
              mult, ContributionTiming.end_⟩ month r s2).balance ≤
              (monthState ⟨startAge, endAge, config, contributionAmount, howOften, mult,
                ContributionTiming.start⟩ month r s1).balance := by
            rw [hS, hE, hcE]
            nlinarith [mul_nonneg hcS hm, mul_nonneg (sub_nonneg.mpr hb) hone]
          obtain ⟨ihle, ihstrict, ihtrig⟩ :=
            ih (month + 1) _ _ sF1' sF2' rest1 rest2 hin1 hin2 hbase
          refine ⟨ihle, ?_, ?_⟩
          · intro hstrict
            apply ihstrict
            rw [hS, hE, hcE]
            nlinarith [mul_nonneg hcS hm, mul_nonneg (sub_nonneg.mpr hb) hone]
          · rintro ⟨i, hi, hcpos, hrpos⟩
            cases i with
            | zero =>
              have hcpos0 : 0 < contributionForMonth ⟨startAge, endAge, config,
                  contributionAmount, howOften, mult, ContributionTiming.start⟩ month := by
                simpa using hcpos
              have hr0 : 0 < r := by
                apply hrpos r
                simpa [ageInMonth] using hr
              have hmpos : 0 < convertAnnualToMonthlyRate r :=
                convertAnnualToMonthlyRate_pos r hr0
              apply ihstrict
              rw [hS, hE, hcE]
              nlinarith [mul_pos hcpos0 hmpos, mul_nonneg (sub_nonneg.mpr hb) hone]
            | succ j =>
              apply ihtrig
              refine ⟨j, by omega, ?_, ?_⟩
              · rw [show month + 1 + j = month + (j + 1) from by omega]
                exact hcpos
              · rw [show month + 1 + j = month + (j + 1) from by omega]
                exact hrpos

/-- The compound multiplier is nonnegative for positive frequencies. -/
theorem getCompoundMultiplier_nonneg (cf kf : ℝ) (h6 : 0 < cf) (h7 : 0 < kf) :
    0 ≤ getCompoundMultiplier cf kf := by
  rw [getCompoundMultiplier]
  split_ifs
  · norm_num
  · exact le_min (by norm_num) (by positivity)

/-- JavaScript `Math.round` is monotone. -/
theorem jsRound_le_jsRound {x y : ℝ} (h : x ≤ y) : jsRound x ≤ jsRound y := by
  rw [jsRound, jsRound]
  exact_mod_cast Int.floor_mono (by linarith)

/-- C2 (amended): with positive contribution amount, all resolved annual
returns nonnegative, and at least one simulated month that both receives a
contribution and has a strictly positive resolved annual return, the
`'start'`-timed run ends with a strictly larger pre-rounding balance (the
last timeline entry's `currentBalance`) than the `'end'`-timed run, and its
rounded `finalBalance` is at least as large.  Amended from the claim:
strictness fails when every resolved return is zero, and rounding to cents
can collapse a strict gap in `finalBalance`. -/
theorem timing_start_beats_end
    (initialBalance contributionAmount startAge endAge : ℝ)
    (config : DynamicGlidepathConfig)
    (contributionFrequency compoundingFrequency : ℝ)
    (h1 : 0 ≤ initialBalance) (h2 : 0 < contributionAmount) (h3 : 0 < startAge)
    (h4 : 0 < endAge) (h5 : startAge < endAge) (h6 : 0 < contributionFrequency)
    (h7 : 0 < compoundingFrequency) (hcfg : waypointsOk config)
    (hrates : ∀ age r,
      calculateGlidepathReturn age config startAge endAge = .ok r → 0 ≤ r)
    (htrig : ∃ m, 1 ≤ m ∧ m ≤ totalMonthsFor startAge endAge ∧
      0 < contributionForMonth ⟨startAge, endAge, config, contributionAmount,
        getHowOftenToCompound contributionFrequency compoundingFrequency,
        getCompoundMultiplier contributionFrequency compoundingFrequency,
        ContributionTiming.start⟩ m ∧
      ∀ r, calculateGlidepathReturn (startAge + ((m : ℝ) - 1) / 12) config startAge
        endAge = .ok r → 0 < r) :
    ∃ res1 res2,
      getCompoundInterestWithGlidepath initialBalance contributionAmount startAge endAge
        config contributionFrequency compoundingFrequency ContributionTiming.start =
        .ok res1 ∧
      getCompoundInterestWithGlidepath initialBalance contributionAmount startAge endAge
        config contributionFrequency compoundingFrequency ContributionTiming.end_ =
        .ok res2 ∧
      (∃ e1 e2, res1.monthlyTimeline.getLast? = some e1 ∧
        res2.monthlyTimeline.getLast? = some e2 ∧
        e2.currentBalance < e1.currentBalance) ∧
      res2.finalBalance ≤ res1.finalBalance := by
  obtain ⟨sF1, es1, hrun1, hlen1, hent1⟩ := simulateMonths_spec
    ⟨startAge, endAge, config, contributionAmount,
      getHowOftenToCompound contributionFrequency compoundingFrequency,
      getCompoundMultiplier contributionFrequency compoundingFrequency,
      ContributionTiming.start⟩ hcfg
    (totalMonthsFor startAge endAge) 1 ⟨initialBalance, 0, 0⟩
  obtain ⟨sF2, es2, hrun2, hlen2, hent2⟩ := simulateMonths_spec
    ⟨startAge, endAge, config, contributionAmount,
      getHowOftenToCompound contributionFrequency compoundingFrequency,
      getCompoundMultiplier contributionFrequency compoundingFrequency,
      ContributionTiming.end_⟩ hcfg
    (totalMonthsFor startAge endAge) 1 ⟨initialBalance, 0, 0⟩
  obtain ⟨e1, hlast1, hb1, _, _⟩ := simulateMonths_getLast
    ⟨startAge, endAge, config, contributionAmount,
      getHowOftenToCompound contributionFrequency compoundingFrequency,
      getCompoundMultiplier contributionFrequency compoundingFrequency,
      ContributionTiming.start⟩
    (totalMonthsFor startAge endAge) 1 ⟨initialBalance, 0, 0⟩ sF1 es1
    (totalMonthsFor_pos startAge endAge h5) hrun1
  obtain ⟨e2, hlast2, hb2, _, _⟩ := simulateMonths_getLast
    ⟨startAge, endAge, config, contributionAmount,
      getHowOftenToCompound contributionFrequency compoundingFrequency,
      getCompoundMultiplier contributionFrequency compoundingFrequency,
      ContributionTiming.end_⟩
    (totalMonthsFor startAge endAge) 1 ⟨initialBalance, 0, 0⟩ sF2 es2
    (totalMonthsFor_pos startAge endAge h5) hrun2
  obtain ⟨hle, _, htrig'⟩ := simulateMonths_timing_le startAge endAge config
    contributionAmount (getHowOftenToCompound contributionFrequency compoundingFrequency)
    (getCompoundMultiplier contributionFrequency compoundingFrequency) h2.le
    (getCompoundMultiplier_nonneg contributionFrequency compoundingFrequency h6 h7) hrates
    (totalMonthsFor startAge endAge) 1 ⟨initialBalance, 0, 0⟩ ⟨initialBalance, 0, 0⟩
    sF1 sF2 es1 es2 hrun1 hrun2 (le_refl _)
  have hstrict : sF2.balance < sF1.balance := by
    apply htrig'
    obtain ⟨m, hm1, hm2, hcp, hrp⟩ := htrig
    refine ⟨m - 1, by omega, ?_, ?_⟩
    · rw [show 1 + (m - 1) = m from by omega]
      exact hcp
    · rw [show 1 + (m - 1) = m from by omega]
      exact hrp
  refine ⟨_, _, getCompoundInterestWithGlidepath_ok initialBalance contributionAmount
    startAge endAge config contributionFrequency compoundingFrequency
    ContributionTiming.start h1 h2.le h3 h4 h5 h6 h7 sF1 es1 hrun1,
    getCompoundInterestWithGlidepath_ok initialBalance contributionAmount startAge endAge
      config contributionFrequency compoundingFrequency ContributionTiming.end_
      h1 h2.le h3 h4 h5 h6 h7 sF2 es2 hrun2, ⟨e1, e2, ?_, ?_, ?_⟩, ?_⟩
  · simpa only [buildGlidepathResult] using hlast1
  · simpa only [buildGlidepathResult] using hlast2
  · rw [hb1, hb2]
    exact hstrict
  · simp only [buildGlidepathResult]
    have hround := jsRound_le_jsRound
      (show sF2.balance * 100 ≤ sF1.balance * 100 by nlinarith)
    linarith

/-- Witness for the amended C2 at a concrete input: flat `5%` returns,
monthly contributions of `100`, ages 30 to 31. -/
theorem timing_start_beats_end_witness :
    ∃ res1 res2,
      getCompoundInterestWithGlidepath 0 100 30 31
        (DynamicGlidepathConfig.fixedReturn 0.05 0.05) 12 12 ContributionTiming.start =
        .ok res1 ∧
      getCompoundInterestWithGlidepath 0 100 30 31
        (DynamicGlidepathConfig.fixedReturn 0.05 0.05) 12 12 ContributionTiming.end_ =
        .ok res2 ∧
      (∃ e1 e2, res1.monthlyTimeline.getLast? = some e1 ∧
        res2.monthlyTimeline.getLast? = some e2 ∧
        e2.currentBalance < e1.currentBalance) ∧
      res2.finalBalance ≤ res1.finalBalance := by
  have hval : ∀ age : ℝ, calculateGlidepathReturn age
      (DynamicGlidepathConfig.fixedReturn 0.05 0.05) 30 31 = .ok 0.05 := by
    intro age
    simp [calculateGlidepathReturn, calculateFixedReturnGlidepath]
  have hHow : getHowOftenToCompound 12 12 = 1 := by
    rw [getHowOftenToCompound, CONTRIBUTION_FREQUENCY_YEARLY, if_neg (by norm_num),
      if_pos (by norm_num), show ((12 : ℝ) / 12) = 1 by norm_num, Int.floor_one]
    norm_num
  have hMult : getCompoundMultiplier 12 12 = 1 := by
    rw [getCompoundMultiplier, CONTRIBUTION_FREQUENCY_YEARLY, if_neg (by norm_num),
      show ((12 : ℝ) / 12) = 1 by norm_num]
    norm_num
  have hTM : totalMonthsFor 30 31 = 12 := by
    rw [totalMonthsFor, show ((31 : ℝ) - 30) * 12 = ((12 : ℕ) : ℝ) by norm_num,
      Int.ceil_natCast]
    rfl
  apply timing_start_beats_end 0 100 30 31 (DynamicGlidepathConfig.fixedReturn 0.05 0.05)
    12 12 (le_refl 0) (by norm_num) (by norm_num) (by norm_num) (by norm_num)
    (by norm_num) (by norm_num) trivial
  · intro age r h
    rw [hval age] at h
    have hr : (0.05 : ℝ) = r := by simpa using h
    rw [← hr]
    norm_num
  · refine ⟨1, le_refl 1, by rw [hTM]; norm_num, ?_, ?_⟩
    · rw [contributionForMonth]
      simp only [hHow, hMult]
      rw [if_pos (by norm_num [jsMod])]
      norm_num
    · intro r h
      rw [hval _] at h
      have hr : (0.05 : ℝ) = r := by simpa using h
      rw [← hr]
      norm_num

/-- At annual rate `0` one month of simulation updates the state
identically for both contribution timings. -/
theorem monthState_zero_rate_timing (startAge endAge : ℝ)
    (config : DynamicGlidepathConfig) (contributionAmount howOften mult : ℝ)
    (month : ℕ) (s : SimState) (t t' : ContributionTiming) :
    monthState ⟨startAge, endAge, config, contributionAmount, howOften, mult, t⟩ month 0
        s =
      monthState ⟨startAge, endAge, config, contributionAmount, howOften, mult, t'⟩ month
        0 s := by
  have hm : convertAnnualToMonthlyRate 0 = 0 := by
    rw [convertAnnualToMonthlyRate]
    norm_num [Real.one_rpow]
  cases t <;> cases t' <;>
    simp only [monthState, preContribState, postContribState, postInterestState, hm,
      contributionForMonth] <;>
    split_ifs <;>
    simp_all [SimState.mk.injEq] <;>
    ring

/-- At a configuration whose resolver always returns annual rate `0`, both
timings produce the same final state. -/
theorem simulateMonths_zero_rate_timing (startAge endAge : ℝ)
    (config : DynamicGlidepathConfig) (contributionAmount howOften mult : ℝ)
    (hzero : ∀ age, calculateGlidepathReturn age config startAge endAge = .ok 0) :
    ∀ (fuel month : ℕ) (s : SimState), ∃ sF es1 es2,
      simulateMonths ⟨startAge, endAge, config, contributionAmount, howOften, mult,
        ContributionTiming.start⟩ month fuel s = .ok (sF, es1) ∧
      simulateMonths ⟨startAge, endAge, config, contributionAmount, howOften, mult,
        ContributionTiming.end_⟩ month fuel s = .ok (sF, es2) := by
  intro fuel
  induction fuel with
  | zero => intro month s; exact ⟨s, [], [], rfl, rfl⟩
  | succ n ih =>
    intro month s
    obtain ⟨sF, es1, es2, hr1, hr2⟩ := ih (month + 1)
      (monthState ⟨startAge, endAge, config, contributionAmount, howOften, mult,
        ContributionTiming.start⟩ month 0 s)
    have hstateEq : monthState ⟨startAge, endAge, config, contributionAmount, howOften,
        mult, ContributionTiming.end_⟩ month 0 s =
        monthState ⟨startAge, endAge, config, contributionAmount, howOften, mult,
          ContributionTiming.start⟩ month 0 s :=
      monthState_zero_rate_timing startAge endAge config contributionAmount howOften mult
        month s ContributionTiming.end_ ContributionTiming.start
    refine ⟨sF,
      monthEntry ⟨startAge, endAge, config, contributionAmount, howOften, mult,
        ContributionTiming.start⟩ month 0 s :: es1,
      monthEntry ⟨startAge, endAge, config, contributionAmount, howOften, mult,
        ContributionTiming.end_⟩ month 0 s :: es2, ?_, ?_⟩
    · simp only [simulateMonths, hzero (ageInMonth ⟨startAge, endAge, config,
        contributionAmount, howOften, mult, ContributionTiming.start⟩ month), hr1]
    · have hr2' : simulateMonths ⟨startAge, endAge, config, contributionAmount, howOften,
          mult, ContributionTiming.end_⟩ (month + 1) n
          (monthState ⟨startAge, endAge, config, contributionAmount, howOften, mult,
            ContributionTiming.end_⟩ month 0 s) = .ok (sF, es2) := by
        rw [hstateEq]
        exact hr2
      simp only [simulateMonths, hzero (ageInMonth ⟨startAge, endAge, config,
        contributionAmount, howOften, mult, ContributionTiming.end_⟩ month), hr2']

/-- Counterexample for C2 as stated: with the flat zero-return
configuration, a positive contribution of `100` per month, ages 30 to 31,
both timings succeed and return exactly the same `finalBalance`, so
`'start'` is not strictly greater even though the contribution is positive
and every resolved return is (non-strictly) nonnegative. -/
theorem timing_zero_rate_counterexample :
    ∃ res1 res2,
      getCompoundInterestWithGlidepath 100 100 30 31
        (DynamicGlidepathConfig.fixedReturn 0 0) 12 12 ContributionTiming.start =
        .ok res1 ∧
      getCompoundInterestWithGlidepath 100 100 30 31
        (DynamicGlidepathConfig.fixedReturn 0 0) 12 12 ContributionTiming.end_ =
        .ok res2 ∧
      res1.finalBalance = res2.finalBalance := by
  have hzero : ∀ age : ℝ, calculateGlidepathReturn age
      (DynamicGlidepathConfig.fixedReturn 0 0) 30 31 = .ok 0 := by
    intro age
    simp [calculateGlidepathReturn, calculateFixedReturnGlidepath]
  obtain ⟨sF, es1, es2, hr1, hr2⟩ := simulateMonths_zero_rate_timing 30 31
    (DynamicGlidepathConfig.fixedReturn 0 0) 100 (getHowOftenToCompound 12 12)
    (getCompoundMultiplier 12 12) hzero (totalMonthsFor 30 31) 1 ⟨100, 0, 0⟩
  refine ⟨_, _, getCompoundInterestWithGlidepath_ok 100 100 30 31
    (DynamicGlidepathConfig.fixedReturn 0 0) 12 12 ContributionTiming.start (by norm_num)
    (by norm_num) (by norm_num) (by norm_num) (by norm_num) (by norm_num) (by norm_num)
    sF es1 hr1,
    getCompoundInterestWithGlidepath_ok 100 100 30 31
      (DynamicGlidepathConfig.fixedReturn 0 0) 12 12 ContributionTiming.end_ (by norm_num)
      (by norm_num) (by norm_num) (by norm_num) (by norm_num) (by norm_num) (by norm_num)
      sF es2 hr2, ?_⟩
  simp only [buildGlidepathResult]

instance : IsTotal GlidepathWaypoint (fun a b => a.age ≤ b.age) :=
  ⟨fun a b => le_total a.age b.age⟩

instance : IsTrans GlidepathWaypoint (fun a b => a.age ≤ b.age) :=
  ⟨fun _ _ _ hab hbc => le_trans hab hbc⟩

/-- The bracket scan of `interpolateWaypoints`, run on a sorted list whose
head age is at most `age` and whose last age is at least `age`, stops at
the first adjacent pair bracketing `age` and returns the linear
interpolation there. -/
theorem findBracketValue_first (age : ℝ) :
    ∀ (ws : List GlidepathWaypoint) (w : GlidepathWaypoint), ws ≠ [] →
      List.Chain' (fun a b : GlidepathWaypoint => a.age ≤ b.age) (w :: ws) →
      w.age ≤ age → age ≤ (ws.getLastD w).age →
      ∃ i, i + 1 < (w :: ws).length ∧
        ((w :: ws).getD i default).age ≤ age ∧
        age ≤ ((w :: ws).getD (i + 1) default).age ∧
        (∀ j, j < i → ¬(((w :: ws).getD j default).age ≤ age ∧
          age ≤ ((w :: ws).getD (j + 1) default).age)) ∧
        findBracketValue age (w :: ws) =
          some (lerpWaypoints ((w :: ws).getD i default) ((w :: ws).getD (i + 1) default)
            age) := by
  intro ws
  induction ws with
  | nil => intro w h; exact absurd rfl h
  | cons b t ihw =>
    intro w _ hchain hw hlast
    by_cases hb : age ≤ b.age
    · refine ⟨0, by simp, by simpa using hw, by simpa using hb, ?_, ?_⟩
      · intro j hj; exact absurd hj (by omega)
      · rw [findBracketValue, if_pos ⟨hw, hb⟩]
        rfl
    · have hbage : b.age < age := not_le.mp hb
      cases t with
      | nil =>
        rw [List.getLastD_cons, List.getLastD_nil] at hlast
        exact absurd hlast hb
      | cons c t' =>
        have hchain' : List.Chain' (fun a b : GlidepathWaypoint => a.age ≤ b.age)
            (b :: c :: t') := (List.chain'_cons.mp hchain).2
        have hlast' : age ≤ ((c :: t').getLastD b).age := by
          rw [List.getLastD_cons] at hlast
          exact hlast
        obtain ⟨i, hlen, hb1, hb2, hmin, hscan⟩ :=
          ihw b (by simp) hchain' (le_of_lt hbage) hlast'
        refine ⟨i + 1, ?_, ?_, ?_, ?_, ?_⟩
        · simpa using hlen
        · simpa using hb1
        · simpa using hb2
        · intro j hj
          cases j with
          | zero =>
            rintro ⟨-, hj2⟩
            exact hb (by simpa using hj2)
          | succ j' =>
            have := hmin j' (by omega)
            simpa using this
        · rw [findBracketValue, if_neg (by rintro ⟨-, h2⟩; exact hb h2), hscan]
          rfl

/-- C4 (amended): over the stable age-sorted copy of a nonempty waypoint
list, a single waypoint is a constant; with two or more waypoints, an age
at or before the first waypoint's age yields the first value, an age at or
after the last waypoint's age — provided it is not also at or before the
first waypoint's age, which the code checks first — yields the last value,
and a strictly interior age yields the linear interpolation at the first
adjacent bracketing pair.  Amended from the claim: with duplicate ages the
two clamp rules can overlap, and the first-waypoint clamp wins. -/
theorem custom_waypoints_interpolation (waypoints : List GlidepathWaypoint)
    (hne : waypoints ≠ []) (age : ℝ) :
    ∃ v, interpolateWaypoints age (sortWaypoints waypoints) = .ok v ∧
      (∀ w, sortWaypoints waypoints = [w] → v = w.value) ∧
      (∀ w ws, sortWaypoints waypoints = w :: ws → ws ≠ [] →
        (age ≤ w.age → v = w.value) ∧
        (¬ age ≤ w.age → (ws.getLastD w).age ≤ age → v = (ws.getLastD w).value) ∧
        (w.age < age → age < (ws.getLastD w).age →
          ∃ i, i + 1 < (w :: ws).length ∧
            ((w :: ws).getD i default).age ≤ age ∧
            age ≤ ((w :: ws).getD (i + 1) default).age ∧
            (∀ j, j < i → ¬(((w :: ws).getD j default).age ≤ age ∧
              age ≤ ((w :: ws).getD (j + 1) default).age)) ∧
            v = lerpWaypoints ((w :: ws).getD i default) ((w :: ws).getD (i + 1) default)
              age)) := by
  have hsorted : List.Sorted (fun a b : GlidepathWaypoint => a.age ≤ b.age)
      (sortWaypoints waypoints) :=
    List.sorted_insertionSort (fun a b : GlidepathWaypoint => a.age ≤ b.age) waypoints
  cases hs : sortWaypoints waypoints with
  | nil => exact absurd ((sortWaypoints_eq_nil_iff waypoints).mp hs) hne
  | cons w ws =>
    rw [hs] at hsorted
    refine ⟨interpolateWaypointsNE age w ws, rfl, ?_, ?_⟩
    · intro w' heq
      injection heq with h1 h2
      subst h1
      subst h2
      rfl
    · intro w' ws' heq hne'
      injection heq with h1 h2
      subst h1
      subst h2
      cases ws with
      | nil => exact absurd rfl hne'
      | cons b t =>
        refine ⟨?_, ?_, ?_⟩
        · intro hcl
          simp only [interpolateWaypointsNE]
          rw [if_pos hcl]
        · intro hnot hcl2
          simp only [interpolateWaypointsNE]
          rw [if_neg hnot, if_pos hcl2]
        · intro hlt1 hlt2
          obtain ⟨i, hlen, hb1, hb2, hmin, hscan⟩ := findBracketValue_first age (b :: t) w
            (by simp) hsorted.chain' (le_of_lt hlt1) (le_of_lt hlt2)
          refine ⟨i, hlen, hb1, hb2, hmin, ?_⟩
          simp only [interpolateWaypointsNE]
          rw [if_neg (not_le.mpr hlt1), if_neg (not_le.mpr hlt2), hscan]
          rfl

/-- Witness for C4 at a concrete nonempty waypoint list. -/
theorem custom_waypoints_interpolation_witness :
    ∃ v, interpolateWaypoints 40
        (sortWaypoints [⟨20, 0.1⟩, ⟨60, 0.05⟩]) = .ok v ∧
      (∀ w, sortWaypoints [⟨20, 0.1⟩, ⟨60, 0.05⟩] = [w] → v = w.value) ∧
      (∀ w ws, sortWaypoints [⟨20, 0.1⟩, ⟨60, 0.05⟩] = w :: ws → ws ≠ [] →
        ((40 : ℝ) ≤ w.age → v = w.value) ∧
        (¬ (40 : ℝ) ≤ w.age → (ws.getLastD w).age ≤ 40 → v = (ws.getLastD w).value) ∧
        (w.age < 40 → (40 : ℝ) < (ws.getLastD w).age →
          ∃ i, i + 1 < (w :: ws).length ∧
            ((w :: ws).getD i default).age ≤ 40 ∧
            (40 : ℝ) ≤ ((w :: ws).getD (i + 1) default).age ∧
            (∀ j, j < i → ¬(((w :: ws).getD j default).age ≤ 40 ∧
              (40 : ℝ) ≤ ((w :: ws).getD (j + 1) default).age)) ∧
            v = lerpWaypoints ((w :: ws).getD i default) ((w :: ws).getD (i + 1) default)
              40)) :=
  custom_waypoints_interpolation [⟨20, 0.1⟩, ⟨60, 0.05⟩] (by simp) 40

/-- Counterexample for C4 as stated: for the duplicate-age list
`[(30, 1), (30, 2)]` queried at age `30`, the age is at or after the last
sorted waypoint's age, yet the code returns the first waypoint's value `1`,
not the last waypoint's value `2`: the first-waypoint clamp is checked
first. -/
theorem waypoint_clamp_counterexample :
    sortWaypoints [⟨30, 1⟩, ⟨30, 2⟩] = [⟨30, 1⟩, ⟨30, 2⟩] ∧
      (((30 : ℝ), (2 : ℝ)) : ℝ × ℝ).1 ≤ 30 ∧
      interpolateWaypoints 30 (sortWaypoints [⟨30, 1⟩, ⟨30, 2⟩]) = .ok 1 ∧
      (1 : ℝ) ≠ 2 := by
  have hs : sortWaypoints [(⟨30, 1⟩ : GlidepathWaypoint), ⟨30, 2⟩] = [⟨30, 1⟩, ⟨30, 2⟩] := by
    rw [sortWaypoints]
    simp [List.insertionSort, List.orderedInsert]
  refine ⟨hs, by norm_num, ?_, by norm_num⟩
  rw [hs]
  simp [interpolateWaypoints, interpolateWaypointsNE]

end RetirementCalc
